import Mathlib

/-
  A shallow embedding of the nodots-lang tree-walking interpreter
  (src/interpreter.py) and proofs about it.

  Conventions of the embedding:
  * Python floats are modelled as exact fractions (`PyNum`): an integer
    numerator and positive integer denominator, compared by value via
    cross-multiplication.  None of the verified properties depend on IEEE
    rounding; division by zero is guarded before dividing, exactly as the
    source raises `ZeroDivisionError` exactly when the divisor equals zero.
  * The mutable `Context` object graph of the source is modelled as a store:
    a list of frames indexed by creation order.  `Context.get_child_context`
    appends a frame whose `parent` is the creating frame's index (the
    source's `children` list is used only for profiling aggregation and is
    omitted).  Scope-chain walks use an internal step bound of `st.length`;
    a walk that runs out of this bound means the chain is ill-formed (never
    the case for stores created by the interpreter) and is reported as an
    `ill` outcome distinct from every source behaviour.
  * The Python exceptions `ReturnEscape`, `BreakEscape`, `ContinueEscape`
    and `LanguageError` are explicit result constructors, threaded together
    with the (mutated) store.
  * Host call-stack exhaustion (`RecursionError`) is modelled by a fuel
    parameter: every `eval_*` level consumes one unit, and running out of
    fuel yields `fuelOut`, which `call_as_func` converts to the
    "maximum recursion depth exceeded" `LanguageError` — mirroring the
    `except RecursionError` handler that wraps every call application.
  * Uncaught host exceptions (for example the `TypeError` that `join`
    triggers by adding a float to a str) are `hostErr`; file I/O performed
    by `read`/`write` is the `io` outcome (outside this model); `log`'s
    printing to stdout is not modelled (it returns Nil as in the source).
-/

namespace Nodots

/-- Source position (line, column) carried by every tree node (`Meta`). -/
structure Pos where
  line : Nat
  column : Nat

/-- `LanguageError` payload: position plus message. -/
structure Err where
  line : Nat
  column : Nat
  message : String

/-- Exact-fraction model of a Python float.  All constructions keep the
denominator positive.  Equality and ordering are by value. -/
structure PyNum where
  n : Int
  d : Int

/-- Embed an integer literal. -/
def PyNum.ofInt (i : Int) : PyNum := ⟨i, 1⟩

def PyNum.add (x y : PyNum) : PyNum := ⟨x.n * y.d + y.n * x.d, x.d * y.d⟩

def PyNum.sub (x y : PyNum) : PyNum := ⟨x.n * y.d - y.n * x.d, x.d * y.d⟩

def PyNum.mul (x y : PyNum) : PyNum := ⟨x.n * y.n, x.d * y.d⟩

def PyNum.neg (x : PyNum) : PyNum := ⟨-x.n, x.d⟩

/-- Division, keeping the denominator positive (only reached when the
divisor is nonzero, see `eval_factor`). -/
def PyNum.div (x y : PyNum) : PyNum :=
  if y.n < 0 then ⟨-(x.n * y.d), x.d * (-y.n)⟩ else ⟨x.n * y.d, x.d * y.n⟩

/-- Value equality of fractions (cross multiplication). -/
def PyNum.beq (x y : PyNum) : Bool := x.n * y.d == y.n * x.d

def PyNum.blt (x y : PyNum) : Bool := decide (x.n * y.d < y.n * x.d)

def PyNum.ble (x y : PyNum) : Bool := decide (x.n * y.d ≤ y.n * x.d)

/-- The Python float is zero exactly when the numerator is zero. -/
def PyNum.isZero (x : PyNum) : Bool := x.n == 0

/-- Python `float.is_integer()`. -/
def PyNum.isInteger (x : PyNum) : Bool := x.n % x.d == 0

/-- Python `int(...)` on a float that the source has already checked to be a
non-negative whole number (list indices): exact division. -/
def PyNum.toIndex (x : PyNum) : Nat := x.n.toNat / x.d.toNat

/-- CPython `str()` of a float, for the values the interpreter stringifies
(dict keys and error renderings).  Exact for whole-valued floats
(`str(1.0) = "1.0"`); non-integral values are rendered best-effort (CPython's
shortest-repr algorithm is outside this model; no theorem depends on it). -/
def PyNum.pyStr (x : PyNum) : String :=
  if x.n % x.d == 0 then toString (x.n / x.d) ++ ".0"
  else toString x.n ++ "/" ++ toString x.d

/- ===================== Syntax trees =====================

Typed rendering of the tagged parse-tree productions that the interpreter
dispatches on (grammar in grammar.py / spec §6):

  program := declaration* ; declaration := fun_decl | statement
  statement := expression_stmt | return_stmt | if_stmt | for_stmt
               | break_stmt | continue_stmt
  expression := assignment ; assignment := identifier "=" assignment | logic_or
  logic_or / logic_and / equality / comparison / term / factor / unary / call
  primary := literal | identifier | "(" expression ")"

Lark flattens a repeated operator chain (`1 + 2 + 3`) into one node, and the
source evaluators read only `children[0..2]`; binary nodes here therefore
carry exactly the one operator pair the source consumes.  `Pos` fields sit
where the source reads a node's `meta` (a node's meta is the position of its
first token, so delegating constructors recover it from their child). -/

mutual

inductive Declaration where
  | stmt (s : Statement)
  | fdecl (pos : Pos) (f : FunDecl)

/-- The `function` node inside `fun ... nuf`: name, parameter names, body
declarations (the shape `eval_function` digs out of the children list). -/
inductive FunDecl where
  | mk (name : String) (params : List String) (body : List Declaration)

inductive Statement where
  | exprStmt (s : ExpressionStmt)
  | returnStmt (pos : Pos) (e : Option Expression)
  | ifStmt (pos : Pos) (cond : Expression) (body : List Declaration)
  | forStmt (pos : Pos) (init : ExpressionStmt) (limit : ExpressionStmt)
      (incr : Expression) (body : List Declaration)
  | breakStmt (pos : Pos)
  | continueStmt (pos : Pos)

/-- `expression_stmt := expression? ";"` (the expression may be absent). -/
inductive ExpressionStmt where
  | mk (pos : Pos) (e : Option Expression)

inductive Expression where
  | mk (a : Assignment)

inductive Assignment where
  | assign (pos : Pos) (name : String) (rhs : Assignment)
  | orE (e : LogicOr)

inductive LogicOr where
  | one (e : LogicAnd)
  | orB (l r : LogicAnd)

inductive LogicAnd where
  | one (e : Equality)
  | andB (l r : Equality)

inductive Equality where
  | one (e : Comparison)
  | eqB (l r : Comparison)
  | neB (l r : Comparison)

inductive Comparison where
  | one (e : Term)
  | ltB (l r : Term)
  | leB (l r : Term)
  | gtB (l r : Term)
  | geB (l r : Term)

inductive Term where
  | one (e : Factor)
  | addB (l r : Factor)
  | subB (l r : Factor)

inductive Factor where
  | one (e : Unary)
  | mulB (l r : Unary)
  | divB (l r : Unary)

inductive Unary where
  | one (e : Call)
  | negU (opPos : Pos) (e : Unary)
  | notU (opPos : Pos) (e : Unary)

/-- `call := primary ( "(" arguments? ")" )*`.  A single-child call node is
one of the literal alternatives or a primary; a multi-child node is a callee
primary with one argument list per chained application (`a()()(2)`); an
application without arguments is the empty list. -/
inductive Call where
  | one (c : CallLit)
  | chain (f : Primary) (argss : List (List Expression))

inductive CallLit where
  | ctrue (pos : Pos)
  | cfalse (pos : Pos)
  | cnil (pos : Pos)
  | num (pos : Pos) (value : PyNum)
  | strL (pos : Pos) (s : String)
  | prim (p : Primary)

inductive Primary where
  | ident (pos : Pos) (name : String)
  | paren (pos : Pos) (e : Expression)

end

/- Position accessors: `node.meta` of the source is the position of the
node's first token, recovered from the child for delegating constructors. -/

def Primary.posOf : Primary → Pos
  | .ident p _ => p
  | .paren p _ => p

def CallLit.posOf : CallLit → Pos
  | .ctrue p => p
  | .cfalse p => p
  | .cnil p => p
  | .num p _ => p
  | .strL p _ => p
  | .prim pr => pr.posOf

def Call.posOf : Call → Pos
  | .one c => c.posOf
  | .chain f _ => f.posOf

def Unary.posOf : Unary → Pos
  | .one c => c.posOf
  | .negU p _ => p
  | .notU p _ => p

def Factor.posOf : Factor → Pos
  | .one e => e.posOf
  | .mulB l _ => l.posOf
  | .divB l _ => l.posOf

def Term.posOf : Term → Pos
  | .one e => e.posOf
  | .addB l _ => l.posOf
  | .subB l _ => l.posOf

def Comparison.posOf : Comparison → Pos
  | .one e => e.posOf
  | .ltB l _ => l.posOf
  | .leB l _ => l.posOf
  | .gtB l _ => l.posOf
  | .geB l _ => l.posOf

def Equality.posOf : Equality → Pos
  | .one e => e.posOf
  | .eqB l _ => l.posOf
  | .neB l _ => l.posOf

def LogicAnd.posOf : LogicAnd → Pos
  | .one e => e.posOf
  | .andB l _ => l.posOf

def LogicOr.posOf : LogicOr → Pos
  | .one e => e.posOf
  | .orB l _ => l.posOf

def Assignment.posOf : Assignment → Pos
  | .assign p _ _ => p
  | .orE e => e.posOf

def Expression.posOf : Expression → Pos
  | .mk a => a.posOf

def ExpressionStmt.posOf : ExpressionStmt → Pos
  | .mk p _ => p

def Statement.posOf : Statement → Pos
  | .exprStmt s => s.posOf
  | .returnStmt p _ => p
  | .ifStmt p _ _ => p
  | .forStmt p _ _ _ _ => p
  | .breakStmt p => p
  | .continueStmt p => p

def Declaration.posOf : Declaration → Pos
  | .stmt s => s.posOf
  | .fdecl p _ => p

/- ===================== Runtime values ===================== -/

/-- A Python dict key as the interpreter stores it: `dictionary` inserts the
raw key payload (a str for `StringValue` keys, a float for `NumberValue`
keys), while `mut`/`at` always look up str keys. -/
inductive DKey where
  | s (s : String)
  | n (q : PyNum)

/-- Python `==` on the key payloads (a str never equals a float). -/
def DKey.beq : DKey → DKey → Bool
  | .s a, .s b => a == b
  | .n a, .n b => a.beq b
  | _, _ => false

/-- The built-in host functions registered by `inject_builtins`. -/
inductive BuiltinF where
  | log
  | dict
  | list
  | mut
  | at
  | keys
  | vals
  | read
  | write
  | join
  | len

mutual

/-- A `FunctionValue` payload: either a user function closure — the index of
its captured defining frame (`function_context`, fixed when `eval_function`
runs), its parameter names and body — or a built-in. -/
inductive FuncF where
  | user (envIdx : Nat) (params : List String) (body : List Declaration)
  | builtin (b : BuiltinF)

/-- The tagged runtime values (subclasses of `Value` in the source). -/
inductive Value where
  | nil
  | bool (b : Bool)
  | num (q : PyNum)
  | str (s : String)
  | list (elems : List Value)
  | dict (entries : List (DKey × Value))
  | fn (f : FuncF)

end

/-- `self.__class__.__name__`, which the source dispatches type checks on. -/
def className : Value → String
  | .nil => "NilValue"
  | .bool _ => "BoolValue"
  | .num _ => "NumberValue"
  | .str _ => "StringValue"
  | .list _ => "ListValue"
  | .dict _ => "DictValue"
  | .fn _ => "FunctionValue"

/-- Python type name of the payload (used in host `TypeError` texts). -/
def pyTypeName : Value → String
  | .nil => "NoneType"
  | .bool _ => "bool"
  | .num _ => "float"
  | .str _ => "str"
  | .list _ => "list"
  | .dict _ => "dict"
  | .fn _ => "function"

/-- `str(payload)` for the payloads that render deterministically.  CPython
renders list/dict payloads through element object-reprs (which contain
memory addresses) and function payloads through closure reprs; those are
represented by fixed placeholders, and no theorem depends on them. -/
def payloadStr : Value → String
  | .nil => "None"
  | .bool b => if b then "True" else "False"
  | .num q => q.pyStr
  | .str s => s
  | .list _ => "<list payload>"
  | .dict _ => "<dict payload>"
  | .fn _ => "<function payload>"

/-- `Value.__str__`: `f"({self.__class__.__name__}: {self.value})"`. -/
def render (v : Value) : String :=
  "(" ++ className v ++ ": " ++ payloadStr v ++ ")"

/-- `f"{list(map(lambda x: str(x), values))}"` (the `dictionary` error). -/
def renderStrList (values : List Value) : String :=
  "[" ++ String.intercalate ", " (values.map (fun v => "'" ++ render v ++ "'")) ++ "]"

/-- Python `f"{values}"` on a list of `Value` objects prints default object
reprs containing memory addresses; fixed placeholder, unused by theorems. -/
def renderObjList (values : List Value) : String :=
  "[" ++ String.intercalate ", " (values.map (fun _ => "<Value object>")) ++ "]"

/-- Python `==` between the stored payloads, as `Value.equals` applies it.
A Python `bool` is an `int`, so `True == 1.0` holds.  The `Value` class
defines no `__eq__`, so while Python compares list and dict payloads
element-wise (two EMPTY lists or dicts compare equal), the elements/values
themselves, and function closures, compare by host OBJECT IDENTITY.  This
aliasing-free value model decides every comparison whose outcome is the
same under every identity assignment — all scalar and unlike-kind pairs,
empty and length-mismatched list/dict payloads — and returns `none`
(outside the model) for the rest, whose outcome can depend on which host
objects the operands are (e.g. in the source `list(1) == list(1)` is false
— two distinct `NumberValue` objects — while `a = list(1); a == a;` is
true, although the compared payloads are structurally identical). -/
def pyEq : Value → Value → Option Bool
  | .nil, .nil => some true
  | .bool a, .bool b => some (a == b)
  | .bool a, .num q => some ((PyNum.ofInt (if a then 1 else 0)).beq q)
  | .num q, .bool b => some (q.beq (PyNum.ofInt (if b then 1 else 0)))
  | .num a, .num b => some (a.beq b)
  | .str a, .str b => some (a == b)
  | .list [], .list [] => some true
  | .list xs, .list ys => if xs.length == ys.length then none else some false
  | .dict [], .dict [] => some true
  | .dict xs, .dict ys => if xs.length == ys.length then none else some false
  | .fn _, .fn _ => none
  | _, _ => some false

/-- `Value.equals`: `BoolValue(self.value == other.value)` — `none` when the
payload comparison is identity-dependent (see `pyEq`). -/
def Value.equals (a b : Value) : Option Value := (pyEq a b).map (fun r => .bool r)

/-- `Value.not_equals`: `BoolValue(self.value != other.value)`. -/
def Value.not_equals (a b : Value) : Option Value := (pyEq a b).map (fun r => .bool (!r))

/-- `Value.check_type`: `none` when the class name is among the expected
kinds, otherwise the `LanguageError` `f"[{self}] {message}"` at the given
position. -/
def check_type (v : Value) (pos : Pos) (kinds : List String) (message : String) :
    Option Err :=
  if kinds.contains (className v) then none
  else some ⟨pos.line, pos.column, "[" ++ render v ++ "] " ++ message⟩

/-- Payload of a value known to be a `BoolValue`. -/
def boolPayload : Value → Bool
  | .bool b => b
  | _ => false

/-- Payload of a value known to be a `NumberValue`. -/
def numPayload : Value → PyNum
  | .num q => q
  | _ => ⟨0, 1⟩

/- ===================== Environments ===================== -/

/-- One `Context`: its lookup table (a Python dict, i.e. an insertion-ordered
association list) and its parent index (`None` at the root). -/
structure Frame where
  parent : Option Nat
  lookup : List (String × Value)

/-- The store of all frames, indexed by creation order. -/
abbrev Store := List Frame

/-- Python dict assignment `d[k] = v` on an association list: replaces in
place if the key is present (keeping insertion order), else appends. -/
def pyDictSet {κ : Type} (beq : κ → κ → Bool) :
    List (κ × Value) → κ → Value → List (κ × Value)
  | [], k, v => [(k, v)]
  | (k', v') :: rest, k, v =>
    if beq k' k then (k, v) :: rest else (k', v') :: pyDictSet beq rest k v

/-- Python `k in d` / `d[k]` on an association list. -/
def pyDictFind {κ : Type} (beq : κ → κ → Bool) :
    List (κ × Value) → κ → Option Value
  | [], _ => none
  | (k', v') :: rest, k => if beq k' k then some v' else pyDictFind beq rest k

/-- Result of a scope-chain lookup. -/
inductive GetRes where
  | found (v : Value)
  | absent
  | illStore

/-- The `while cur:` walk of `Context.get`, bounded by a step budget. -/
def context_get_aux (st : Store) : Nat → Nat → String → GetRes
  | 0, _, _ => .illStore
  | fuel + 1, cur, key =>
    match st[cur]? with
    | none => .illStore
    | some fr =>
      match pyDictFind BEq.beq fr.lookup key with
      | some v => .found v
      | none =>
        match fr.parent with
        | some p => context_get_aux st fuel p key
        | none => .absent

/-- `Context.get`: walk from the current frame outward; `absent` corresponds
to raising `unknown variable` at the caller's position. -/
def context_get (st : Store) (idx : Nat) (key : String) : GetRes :=
  context_get_aux st st.length idx key

/-- The `while cur:` walk of `Context.set`: mutate the first frame on the
chain that binds `key`; if none does, bind it in the frame the walk started
from (`self.lookup[key] = value`).  `none` only on an ill-formed chain. -/
def context_set_aux (st : Store) (selfIdx : Nat) :
    Nat → Nat → String → Value → Option Store
  | 0, _, _, _ => none
  | fuel + 1, cur, key, v =>
    match st[cur]? with
    | none => none
    | some fr =>
      if (pyDictFind BEq.beq fr.lookup key).isSome then
        some (st.set cur ⟨fr.parent, pyDictSet BEq.beq fr.lookup key v⟩)
      else
        match fr.parent with
        | some p => context_set_aux st selfIdx fuel p key v
        | none =>
          match st[selfIdx]? with
          | some sfr =>
            some (st.set selfIdx ⟨sfr.parent, pyDictSet BEq.beq sfr.lookup key v⟩)
          | none => none

/-- `Context.set` (never fails on the stores the interpreter builds). -/
def context_set (st : Store) (idx : Nat) (key : String) (v : Value) :
    Option Store :=
  context_set_aux st idx st.length idx key v

/-- `Context.get_child_context`: append a fresh empty frame whose parent is
the creating frame; returns the new store and the new frame's index. -/
def get_child_context (st : Store) (idx : Nat) : Store × Nat :=
  (st ++ [⟨some idx, []⟩], st.length)

/- ===================== Evaluation outcomes ===================== -/

/-- Outcome of one evaluation step, paired with the store by every
evaluator.  `ok` is a normal value; `ret`/`brk`/`cont` are the
`ReturnEscape`/`BreakEscape`/`ContinueEscape` exceptions; `err` is a raised
`LanguageError`; `fuelOut` is the host `RecursionError`; `hostErr` is any
other uncaught host exception; `io` marks file I/O (outside the model);
`ill` marks an outcome outside the model: an ill-formed store, a host value
outside the value domain, or a result that depends on host object identity
(see `pyEq`). -/
inductive EvalRes where
  | ok (v : Value)
  | ret (v : Value)
  | brk
  | cont
  | err (e : Err)
  | fuelOut
  | hostErr (msg : String)
  | io
  | ill (msg : String)

/-- Outcome of a built-in application. -/
inductive BuiltinOut where
  | ok (v : Value)
  | err (e : Err)
  | hostErr (msg : String)
  | io
  | ill (msg : String)

def BuiltinOut.toEvalRes : BuiltinOut → EvalRes
  | .ok v => .ok v
  | .err e => .err e
  | .hostErr m => .hostErr m
  | .io => .io
  | .ill m => .ill m

def exceptOut : Except Err Value → BuiltinOut
  | .ok v => .ok v
  | .error e => .err e

/- ===================== Built-in library ===================== -/

/-- `dictionary` key/value pair loop: each key must be a str or a float, and
is stored as its raw payload (`ret.value[key.value] = value`) — a float key
is NOT stringified here (contrast `mut`/`at` below). -/
def dictionary_pairs (pos : Pos) :
    List Value → List (DKey × Value) → Except Err (List (DKey × Value))
  | [], acc => .ok acc
  | key :: value :: rest, acc =>
    match key with
    | .str s => dictionary_pairs pos rest (pyDictSet DKey.beq acc (.s s) value)
    | .num q => dictionary_pairs pos rest (pyDictSet DKey.beq acc (.n q) value)
    | _ =>
      .error ⟨pos.line, pos.column,
        "[" ++ render key ++ "] only strings or numbers can be keys"⟩
  | [_], acc => .ok acc

/-- Built-in `dict(...)`. -/
def dictionary (pos : Pos) (values : List Value) : Except Err Value :=
  if values.length % 2 != 0 then
    .error ⟨pos.line, pos.column,
      "dict expects an even number of args e.g. `k, v, k, v`, got: "
        ++ renderStrList values⟩
  else
    (dictionary_pairs pos values []).map .dict

/-- Built-in `list(...)`. -/
def listof (values : List Value) : Value := .list values

/-- Built-in `mut(object, index, value)`.  The source mutates `values[0]` in
place; this pure embedding returns the updated collection alongside the Nil
result (an in-place write is visible through aliases in the source; no
theorem below evaluates `mut` through an aliased binding). -/
def mut' (pos : Pos) (values : List Value) : Except Err (Value × Value) :=
  if values.length != 3 then
    .error ⟨pos.line, pos.column,
      "mut() expects three args (object, index, value), got "
        ++ renderObjList values⟩
  else
    match values with
    | v0 :: v1 :: v2 :: _ =>
      match v0 with
      | .list elems =>
        match v1 with
        | .num q =>
          if q.blt (PyNum.ofInt 0) || !q.isInteger then
            .error ⟨pos.line, pos.column,
              "list index must be a positive whole number, got: " ++ q.pyStr⟩
          else if (PyNum.ofInt elems.length).ble q then
            .error ⟨pos.line, pos.column,
              "list index out of bounds, len: " ++ toString elems.length
                ++ ", got: " ++ q.pyStr⟩
          else
            .ok (.list (elems.set q.toIndex v2), .nil)
        | _ =>
          .error ⟨pos.line, pos.column,
            "[" ++ render v1 ++ "] lists can only be indexed by numbers"⟩
      | .dict entries =>
        match v1 with
        | .str s => .ok (.dict (pyDictSet DKey.beq entries (.s s) v2), .nil)
        | .num q => .ok (.dict (pyDictSet DKey.beq entries (.s q.pyStr) v2), .nil)
        | _ =>
          .error ⟨pos.line, pos.column,
            "[" ++ render v1 ++ "] lists can only be indexed by strings or numbers"⟩
      | _ =>
        .error ⟨pos.line, pos.column,
          "[" ++ render v0 ++ "] only dicts or lists can be called with mut()"⟩
    | _ => .error ⟨pos.line, pos.column, "mut() expects three args"⟩

/-- Built-in `at(coll, key)`.  A float dict key is stringified
(`key = str(values[1].value)`) before the lookup — so an entry stored by
`dictionary` under a raw float key can never be found.  A missing dict key
yields Nil. -/
def at' (pos : Pos) (values : List Value) : Except Err Value :=
  if values.length != 2 then
    .error ⟨pos.line, pos.column,
      "at() expects two args (index, value), got " ++ renderObjList values⟩
  else
    match values with
    | v0 :: v1 :: _ =>
      match v0 with
      | .list elems =>
        match v1 with
        | .num q =>
          if q.blt (PyNum.ofInt 0) || !q.isInteger then
            .error ⟨pos.line, pos.column,
              "list index must be a positive whole number, got: " ++ q.pyStr⟩
          else if (PyNum.ofInt elems.length).ble q then
            .error ⟨pos.line, pos.column,
              "list index out of bounds, len: " ++ toString elems.length
                ++ " got: " ++ q.pyStr⟩
          else
            match elems[q.toIndex]? with
            | some v => .ok v
            | none => .error ⟨pos.line, pos.column, "list index out of bounds"⟩
        | _ =>
          .error ⟨pos.line, pos.column,
            "[" ++ render v1 ++ "] lists can only be indexed by numbers"⟩
      | .dict entries =>
        match v1 with
        | .str s =>
          match pyDictFind DKey.beq entries (.s s) with
          | some v => .ok v
          | none => .ok .nil
        | .num q =>
          match pyDictFind DKey.beq entries (.s q.pyStr) with
          | some v => .ok v
          | none => .ok .nil
        | _ =>
          .error ⟨pos.line, pos.column,
            "[" ++ render v1 ++ "] lists can only be indexed by strings or numbers"⟩
      | _ =>
        .error ⟨pos.line, pos.column,
          "[" ++ render v0 ++ "] only dicts or lists can be called with mut()"⟩
    | _ => .error ⟨pos.line, pos.column, "at() expects two args"⟩

/-- Built-in `keys(dict)`: `StringValue(k)` for each stored key, in insertion
order.  For a raw float key the source yields a `StringValue` whose payload
is still a float; rendered here via `pyStr` (no theorem relies on `keys` of
a float-keyed dict). -/
def keysof (pos : Pos) (values : List Value) : Except Err Value :=
  if values.length != 1 then
    .error ⟨pos.line, pos.column,
      "keys() expects one arg (dict), got " ++ renderObjList values⟩
  else
    match values with
    | [.dict entries] =>
      .ok (.list (entries.map (fun kv =>
        match kv.1 with
        | .s s => .str s
        | .n q => .str q.pyStr)))
    | v0 :: _ =>
      .error ⟨pos.line, pos.column,
        "[" ++ render v0 ++ "] only dicts can be called with keys()"⟩
    | _ => .error ⟨pos.line, pos.column, "keys() expects one arg"⟩

/-- Built-in `vals(dict)`. -/
def vals (pos : Pos) (values : List Value) : Except Err Value :=
  if values.length != 1 then
    .error ⟨pos.line, pos.column,
      "vals() expects one arg (dict), got " ++ renderObjList values⟩
  else
    match values with
    | [.dict entries] => .ok (.list (entries.map (·.2)))
    | v0 :: _ =>
      .error ⟨pos.line, pos.column,
        "[" ++ render v0 ++ "] only dicts can be called with vals()"⟩
    | _ => .error ⟨pos.line, pos.column, "vals() expects one arg"⟩

/-- Built-in `read(path, callback)`: after its argument checks it performs
file I/O (outside this model). -/
def read (pos : Pos) (values : List Value) : BuiltinOut :=
  if values.length != 2 then
    .err ⟨pos.line, pos.column,
      "read() expects two args [string, function], got " ++ renderObjList values⟩
  else
    match values with
    | v0 :: v1 :: _ =>
      match check_type v0 pos ["StringValue"]
          ("read() expects a string file path as the first arg, got " ++ render v0) with
      | some e => .err e
      | none =>
        match check_type v1 pos ["FunctionValue"]
            ("read() expects a read function as the second arg, got " ++ render v1) with
        | some e => .err e
        | none => .io
    | _ => .err ⟨pos.line, pos.column, "read() expects two args"⟩

/-- Built-in `write(path, value)`: after its argument checks it performs
file I/O (outside this model). -/
def write (pos : Pos) (values : List Value) : BuiltinOut :=
  if values.length != 2 then
    .err ⟨pos.line, pos.column,
      "write() expects two args [string, string | number], got "
        ++ renderObjList values⟩
  else
    match values with
    | v0 :: v1 :: _ =>
      match check_type v0 pos ["StringValue"]
          ("write() expects a (string) file path as the first arg, got " ++ render v0) with
      | some e => .err e
      | none =>
        match check_type v1 pos ["StringValue", "NumberValue"]
            ("write() expects a (string | number) as the second arg, got " ++ render v1) with
        | some e => .err e
        | none => .io
    | _ => .err ⟨pos.line, pos.column, "write() expects two args"⟩

/-- The `join()` error text. -/
def joinMsg (values : List Value) : String :=
  "join() expects two args [string, string] or [list, list], got "
    ++ renderObjList values

/-- Built-in `join(a, b)`, faithfully including the slip in the source: both
inner checks re-test `values[0]` (where `values[1]` was clearly intended).
Consequently with a String first argument the source runs
`values[0].value + values[1].value` for ANY second argument — a raw host
`TypeError` unless it is also a str — and with a List first argument it runs
`for v in values[1].value` — a host `TypeError` for non-iterable payloads,
and for a str/dict payload it silently appends raw host objects (characters
or keys) that are not `Value`s at all, yielding a list outside the value
model (`ill`). -/
def join (pos : Pos) (values : List Value) : BuiltinOut :=
  if values.length != 2 then .err ⟨pos.line, pos.column, joinMsg values⟩
  else
    match values with
    | v0 :: v1 :: _ =>
      if className v0 == "StringValue" then
        if className v0 != "StringValue" then .err ⟨pos.line, pos.column, joinMsg values⟩
        else
          match v0, v1 with
          | .str a, .str b => .ok (.str (a ++ b))
          | _, _ =>
            .hostErr ("TypeError: can only concatenate str (not \""
              ++ pyTypeName v1 ++ "\") to str")
      else if className v0 == "ListValue" then
        if className v0 != "ListValue" then .err ⟨pos.line, pos.column, joinMsg values⟩
        else
          match v0, v1 with
          | .list a, .list b => .ok (.list (a ++ b))
          | .list _, .str _ =>
            .ill "join appends each character of the str as a raw host object"
          | .list _, .dict _ =>
            .ill "join appends each dict key as a raw host object"
          | _, _ =>
            .hostErr ("TypeError: '" ++ pyTypeName v1 ++ "' object is not iterable")
      else .err ⟨pos.line, pos.column, joinMsg values⟩
    | _ => .err ⟨pos.line, pos.column, joinMsg values⟩

/-- Built-in `len(stringOrList)`. -/
def length (pos : Pos) (values : List Value) : Except Err Value :=
  if values.length != 1 then
    .error ⟨pos.line, pos.column,
      "len() expects a single arg (string | list), got " ++ renderObjList values⟩
  else
    match values with
    | v0 :: _ =>
      match check_type v0 pos ["StringValue", "ListValue"]
          "len() expects a (string | list)" with
      | some e => .error e
      | none =>
        match v0 with
        | .str s => .ok (.num (PyNum.ofInt s.length))
        | .list elems => .ok (.num (PyNum.ofInt elems.length))
        | _ => .ok .nil
    | _ => .error ⟨pos.line, pos.column, "len() expects a single arg"⟩

/-- Dispatch a built-in application.  `log` prints each value to stdout
and, having no `return` statement, yields the host `None` object — NOT a
`NilValue` — so both its effect and its result are outside the value model
(`ill`); `mut`'s in-place write is returned functionally (see `mut`). -/
def apply_builtin (b : BuiltinF) (pos : Pos) (args : List Value) : BuiltinOut :=
  match b with
  | .log => .ill "log prints to stdout and returns the host None object"
  | .dict => exceptOut (dictionary pos args)
  | .list => .ok (listof args)
  | .mut =>
    match mut' pos args with
    | .ok (_, r) => .ok r
    | .error e => .err e
  | .at => exceptOut (at' pos args)
  | .keys => exceptOut (keysof pos args)
  | .vals => exceptOut (vals pos args)
  | .read => read pos args
  | .write => write pos args
  | .join => join pos args
  | .len => exceptOut (length pos args)

/- ===================== The evaluator ===================== -/

/-- Result of `eval_arguments`: the evaluated argument values, or the escape
(exception) that aborted evaluation. -/
inductive ArgsRes where
  | vals (vs : List Value)
  | esc (r : EvalRes)

/-- Result of one pass over a for-loop body: ran to the end (also after a
`continue`, which merely stops the pass), hit a `break`, or an escape. -/
inductive ForBodyRes where
  | done
  | broke
  | esc (r : EvalRes)

/-- One evaluation step result: updated store plus outcome. -/
abbrev ERes := Store × EvalRes

/-- `per_call_context.set(parameters[i], arg)` for each parameter in order.
Note this is `Context.set`, which walks the scope chain: a parameter whose
name is already bound in an ancestor scope mutates that ancestor binding.
(`none` only on an ill-formed chain.) -/
def bind_args (st : Store) (callIdx : Nat) :
    List String → List Value → Option Store
  | p :: ps', a :: as'' =>
    match context_set st callIdx p a with
    | some st' => bind_args st' callIdx ps' as''
    | none => none
  | _, _ => some st

mutual

/-- `eval_identifier` inside `eval_primary`: `context.get` at the node's
position. -/
def eval_primary (fuel : Nat) (p : Primary) (ctx : Nat) (st : Store) : ERes :=
  match fuel with
  | 0 => (st, .fuelOut)
  | fuel + 1 =>
    match p with
    | .ident pos name =>
      match context_get st ctx name with
      | .found v => (st, .ok v)
      | .absent => (st, .err ⟨pos.line, pos.column, "unknown variable '" ++ name ++ "'"⟩)
      | .illStore => (st, .ill "scope chain")
    | .paren _ e => eval_expression fuel e ctx st
termination_by structural fuel

/-- `eval_arguments`: evaluate each argument expression left to right. -/
def eval_arguments (fuel : Nat) (es : List Expression) (ctx : Nat) (st : Store) :
    Store × ArgsRes :=
  match fuel with
  | 0 => (st, .esc .fuelOut)
  | fuel + 1 =>
    match es with
    | [] => (st, .vals [])
    | e :: rest =>
      match eval_expression fuel e ctx st with
      | (st1, .ok v) =>
        match eval_arguments fuel rest ctx st1 with
        | (st2, .vals vs) => (st2, .vals (v :: vs))
        | esc => esc
      | (st1, r) => (st1, .esc r)
termination_by structural fuel

/-- `Value.call_as_func`: the callable check, then the call guarded by the
`except RecursionError` handler — entering a call with no fuel left, or a
`fuelOut` bubbling out of the call's own evaluation, becomes the
"maximum recursion depth exceeded" `LanguageError` at this call's position. -/
def call_as_func (fuel : Nat) (pos : Pos) (fv : Value) (args : List Value)
    (st : Store) : ERes :=
  match fv with
  | .fn f =>
    match fuel with
    | 0 => (st, .err ⟨pos.line, pos.column, "maximum recursion depth exceeded"⟩)
    | fuel + 1 =>
      match f with
      | .builtin b => (st, (apply_builtin b pos args).toEvalRes)
      | .user envIdx params body =>
        if args.length != params.length then
          (st, .err ⟨pos.line, pos.column,
            "not enough (or too many) function arguments, want "
              ++ toString params.length ++ ", got " ++ toString args.length⟩)
        else
          match get_child_context st envIdx with
          | (st1, callIdx) =>
            match bind_args st1 callIdx params args with
            | none => (st1, .ill "scope chain")
            | some st2 =>
              match run_fun_body fuel body callIdx st2 with
              | (st3, .fuelOut) =>
                (st3, .err ⟨pos.line, pos.column, "maximum recursion depth exceeded"⟩)
              | (st3, r) => (st3, r)
  | v => (st, .err ⟨pos.line, pos.column, "[" ++ render v ++ "] only functions are callable"⟩)
termination_by structural fuel

/-- The `for child in body:` loop of the closure built by `eval_function`:
a `ReturnEscape` becomes the call's result; a `BreakEscape`/`ContinueEscape`
bubbling out of a body statement is converted to the ScopeEscape
`LanguageError` at that statement's position — never forwarded to any loop
enclosing the caller; falling off the end yields Nil. -/
def run_fun_body (fuel : Nat) (body : List Declaration) (ctx : Nat) (st : Store) : ERes :=
  match fuel with
  | 0 => (st, .fuelOut)
  | fuel + 1 =>
    match body with
    | [] => (st, .ok .nil)
    | d :: ds =>
      match eval_declaration fuel d ctx st with
      | (st1, .ok _) => run_fun_body fuel ds ctx st1
      | (st1, .ret v) => (st1, .ok v)
      | (st1, .brk) =>
        (st1, .err ⟨d.posOf.line, d.posOf.column,
          "can't use 'break' outside of for loop body"⟩)
      | (st1, .cont) =>
        (st1, .err ⟨d.posOf.line, d.posOf.column,
          "can't use 'continue' outside of for loop body"⟩)
      | (st1, r) => (st1, r)
termination_by structural fuel

/-- The application loop of `eval_call`: apply each argument list in turn to
the current callee, at the position of the initial primary. -/
def eval_applications (fuel : Nat) (pos : Pos) (cur : Value)
    (argss : List (List Expression)) (ctx : Nat) (st : Store) : ERes :=
  match fuel with
  | 0 => (st, .fuelOut)
  | fuel + 1 =>
    match argss with
    | [] => (st, .ok cur)
    | args :: rest =>
      match eval_arguments fuel args ctx st with
      | (st1, .vals vs) =>
        match call_as_func fuel pos cur vs st1 with
        | (st2, .ok v) => eval_applications fuel pos v rest ctx st2
        | esc => esc
      | (st1, .esc r) => (st1, r)
termination_by structural fuel

/-- `eval_call`: a literal/primary, or a chained call. -/
def eval_call (fuel : Nat) (c : Call) (ctx : Nat) (st : Store) : ERes :=
  match fuel with
  | 0 => (st, .fuelOut)
  | fuel + 1 =>
    match c with
    | .one lit =>
      match lit with
      | .ctrue _ => (st, .ok (.bool true))
      | .cfalse _ => (st, .ok (.bool false))
      | .cnil _ => (st, .ok .nil)
      | .num _ q => (st, .ok (.num q))
      | .strL _ s => (st, .ok (.str s))
      | .prim p => eval_primary fuel p ctx st
    | .chain f argss =>
      match eval_primary fuel f ctx st with
      | (st1, .ok fv) => eval_applications fuel f.posOf fv argss ctx st1
      | esc => esc
termination_by structural fuel

/-- `eval_unary`. -/
def eval_unary (fuel : Nat) (u : Unary) (ctx : Nat) (st : Store) : ERes :=
  match fuel with
  | 0 => (st, .fuelOut)
  | fuel + 1 =>
    match u with
    | .one c => eval_call fuel c ctx st
    | .negU _ e =>
      match eval_unary fuel e ctx st with
      | (st1, .ok v) =>
        match check_type v e.posOf ["NumberValue"] "only numbers can be negated" with
        | some er => (st1, .err er)
        | none => (st1, .ok (.num (numPayload v).neg))
      | esc => esc
    | .notU _ e =>
      match eval_unary fuel e ctx st with
      | (st1, .ok v) =>
        match check_type v e.posOf ["BoolValue"] "only booleans can be flipped" with
        | some er => (st1, .err er)
        | none => (st1, .ok (.bool (!boolPayload v)))
      | esc => esc
termination_by structural fuel

/-- `eval_factor`: both operands are evaluated, then both type-checked; `/`
raises the divide-by-zero `LanguageError` (at the left operand's position)
exactly when the divisor's payload equals zero, else yields the quotient. -/
def eval_factor (fuel : Nat) (f : Factor) (ctx : Nat) (st : Store) : ERes :=
  match fuel with
  | 0 => (st, .fuelOut)
  | fuel + 1 =>
    match f with
    | .one e => eval_unary fuel e ctx st
    | .mulB l r =>
      match eval_unary fuel l ctx st with
      | (st1, .ok lv) =>
        match eval_unary fuel r ctx st1 with
        | (st2, .ok rv) =>
          match check_type lv l.posOf ["NumberValue"] "only numbers can be factored" with
          | some er => (st2, .err er)
          | none =>
            match check_type rv r.posOf ["NumberValue"] "only numbers can be factored" with
            | some er => (st2, .err er)
            | none => (st2, .ok (.num ((numPayload lv).mul (numPayload rv))))
        | esc => esc
      | esc => esc
    | .divB l r =>
      match eval_unary fuel l ctx st with
      | (st1, .ok lv) =>
        match eval_unary fuel r ctx st1 with
        | (st2, .ok rv) =>
          match check_type lv l.posOf ["NumberValue"] "only numbers can be factored" with
          | some er => (st2, .err er)
          | none =>
            match check_type rv r.posOf ["NumberValue"] "only numbers can be factored" with
            | some er => (st2, .err er)
            | none =>
              if (numPayload rv).isZero then
                (st2, .err ⟨l.posOf.line, l.posOf.column, "cannot divide by zero"⟩)
              else (st2, .ok (.num ((numPayload lv).div (numPayload rv))))
        | esc => esc
      | esc => esc
termination_by structural fuel

/-- `eval_term`. -/
def eval_term (fuel : Nat) (t : Term) (ctx : Nat) (st : Store) : ERes :=
  match fuel with
  | 0 => (st, .fuelOut)
  | fuel + 1 =>
    match t with
    | .one e => eval_factor fuel e ctx st
    | .addB l r =>
      match eval_factor fuel l ctx st with
      | (st1, .ok lv) =>
        match eval_factor fuel r ctx st1 with
        | (st2, .ok rv) =>
          match check_type lv l.posOf ["NumberValue"]
              "only numbers can be added or subtracted" with
          | some er => (st2, .err er)
          | none =>
            match check_type rv r.posOf ["NumberValue"]
                "only numbers can be added or subtracted" with
            | some er => (st2, .err er)
            | none => (st2, .ok (.num ((numPayload lv).add (numPayload rv))))
        | esc => esc
      | esc => esc
    | .subB l r =>
      match eval_factor fuel l ctx st with
      | (st1, .ok lv) =>
        match eval_factor fuel r ctx st1 with
        | (st2, .ok rv) =>
          match check_type lv l.posOf ["NumberValue"]
              "only numbers can be added or subtracted" with
          | some er => (st2, .err er)
          | none =>
            match check_type rv r.posOf ["NumberValue"]
                "only numbers can be added or subtracted" with
            | some er => (st2, .err er)
            | none => (st2, .ok (.num ((numPayload lv).sub (numPayload rv))))
        | esc => esc
      | esc => esc
termination_by structural fuel

/-- `eval_comparison`. -/
def eval_comparison (fuel : Nat) (c : Comparison) (ctx : Nat) (st : Store) : ERes :=
  match fuel with
  | 0 => (st, .fuelOut)
  | fuel + 1 =>
    match c with
    | .one e => eval_term fuel e ctx st
    | .ltB l r => eval_comparison_op fuel l r ctx st (fun a b => a.blt b)
    | .leB l r => eval_comparison_op fuel l r ctx st (fun a b => a.ble b)
    | .gtB l r => eval_comparison_op fuel l r ctx st (fun a b => b.blt a)
    | .geB l r => eval_comparison_op fuel l r ctx st (fun a b => b.ble a)
termination_by structural fuel

/-- Shared operand handling of the four comparison operators (evaluate both,
type-check both as numbers, compare). -/
def eval_comparison_op (fuel : Nat) (l r : Term) (ctx : Nat) (st : Store)
    (op : PyNum → PyNum → Bool) : ERes :=
  match fuel with
  | 0 => (st, .fuelOut)
  | fuel + 1 =>
    match eval_term fuel l ctx st with
    | (st1, .ok lv) =>
      match eval_term fuel r ctx st1 with
      | (st2, .ok rv) =>
        match check_type lv l.posOf ["NumberValue"] "only numbers can be compared" with
        | some er => (st2, .err er)
        | none =>
          match check_type rv r.posOf ["NumberValue"] "only numbers can be compared" with
          | some er => (st2, .err er)
          | none => (st2, .ok (.bool (op (numPayload lv) (numPayload rv))))
      | esc => esc
    | esc => esc
termination_by structural fuel

/-- `eval_equality`: no type check — `equals`/`not_equals` are applied to
any pair of operand kinds. -/
def eval_equality (fuel : Nat) (eq : Equality) (ctx : Nat) (st : Store) : ERes :=
  match fuel with
  | 0 => (st, .fuelOut)
  | fuel + 1 =>
    match eq with
    | .one e => eval_comparison fuel e ctx st
    | .eqB l r =>
      match eval_comparison fuel l ctx st with
      | (st1, .ok lv) =>
        match eval_comparison fuel r ctx st1 with
        | (st2, .ok rv) =>
          match lv.equals rv with
          | some v => (st2, .ok v)
          | none => (st2, .ill "identity-dependent payload comparison")
        | esc => esc
      | esc => esc
    | .neB l r =>
      match eval_comparison fuel l ctx st with
      | (st1, .ok lv) =>
        match eval_comparison fuel r ctx st1 with
        | (st2, .ok rv) =>
          match lv.not_equals rv with
          | some v => (st2, .ok v)
          | none => (st2, .ill "identity-dependent payload comparison")
        | esc => esc
      | esc => esc
termination_by structural fuel

/-- `eval_logic_and`: both operands evaluated, then both checked Bool. -/
def eval_logic_and (fuel : Nat) (la : LogicAnd) (ctx : Nat) (st : Store) : ERes :=
  match fuel with
  | 0 => (st, .fuelOut)
  | fuel + 1 =>
    match la with
    | .one e => eval_equality fuel e ctx st
    | .andB l r =>
      match eval_equality fuel l ctx st with
      | (st1, .ok lv) =>
        match eval_equality fuel r ctx st1 with
        | (st2, .ok rv) =>
          match check_type lv l.posOf ["BoolValue"]
              "only booleans can be used with 'and'" with
          | some er => (st2, .err er)
          | none =>
            match check_type rv r.posOf ["BoolValue"]
                "only booleans can be used with 'and'" with
            | some er => (st2, .err er)
            | none => (st2, .ok (.bool (boolPayload lv && boolPayload rv)))
        | esc => esc
      | esc => esc
termination_by structural fuel

/-- `eval_logic_or` (like `and`, both operands always evaluated — there is
no short-circuiting in the source). -/
def eval_logic_or (fuel : Nat) (lo : LogicOr) (ctx : Nat) (st : Store) : ERes :=
  match fuel with
  | 0 => (st, .fuelOut)
  | fuel + 1 =>
    match lo with
    | .one e => eval_logic_and fuel e ctx st
    | .orB l r =>
      match eval_logic_and fuel l ctx st with
      | (st1, .ok lv) =>
        match eval_logic_and fuel r ctx st1 with
        | (st2, .ok rv) =>
          match check_type lv l.posOf ["BoolValue"]
              "only booleans can be used with 'or'" with
          | some er => (st2, .err er)
          | none =>
            match check_type rv r.posOf ["BoolValue"]
                "only booleans can be used with 'or'" with
            | some er => (st2, .err er)
            | none => (st2, .ok (.bool (boolPayload lv || boolPayload rv)))
        | esc => esc
      | esc => esc
termination_by structural fuel

/-- `eval_assignment`: an identifier target evaluates the right side first,
`set`s it, and the whole assignment expression yields Nil; otherwise the
node delegates to `logic_or`. -/
def eval_assignment (fuel : Nat) (a : Assignment) (ctx : Nat) (st : Store) : ERes :=
  match fuel with
  | 0 => (st, .fuelOut)
  | fuel + 1 =>
    match a with
    | .assign _ name rhs =>
      match eval_assignment fuel rhs ctx st with
      | (st1, .ok v) =>
        match context_set st1 ctx name v with
        | some st2 => (st2, .ok .nil)
        | none => (st1, .ill "scope chain")
      | esc => esc
    | .orE e => eval_logic_or fuel e ctx st
termination_by structural fuel

/-- `eval_expression`. -/
def eval_expression (fuel : Nat) (e : Expression) (ctx : Nat) (st : Store) : ERes :=
  match fuel with
  | 0 => (st, .fuelOut)
  | fuel + 1 =>
    match e with
    | .mk a => eval_assignment fuel a ctx st
termination_by structural fuel

/-- `eval_expression_stmt` (an empty expression statement yields Nil). -/
def eval_expression_stmt (fuel : Nat) (es : ExpressionStmt) (ctx : Nat) (st : Store) : ERes :=
  match fuel with
  | 0 => (st, .fuelOut)
  | fuel + 1 =>
    match es with
    | .mk _ none => (st, .ok .nil)
    | .mk _ (some e) => eval_expression fuel e ctx st
termination_by structural fuel

/-- `eval_return_stmt`: evaluate the expression (its escapes propagate) and
raise `ReturnEscape` with it; a bare `return;` carries Nil. -/
def eval_return_stmt (fuel : Nat) (oe : Option Expression) (ctx : Nat) (st : Store) : ERes :=
  match fuel with
  | 0 => (st, .fuelOut)
  | fuel + 1 =>
    match oe with
    | some e =>
      match eval_expression fuel e ctx st with
      | (st1, .ok v) => (st1, .ret v)
      | esc => esc
    | none => (st, .ret .nil)
termination_by structural fuel

/-- The plain body loop of `eval_if_stmt`: statements run in order; every
escape propagates unexamined; falling off the end yields Nil. -/
def run_seq (fuel : Nat) (ds : List Declaration) (ctx : Nat) (st : Store) : ERes :=
  match fuel with
  | 0 => (st, .fuelOut)
  | fuel + 1 =>
    match ds with
    | [] => (st, .ok .nil)
    | d :: rest =>
      match eval_declaration fuel d ctx st with
      | (st1, .ok _) => run_seq fuel rest ctx st1
      | esc => esc
termination_by structural fuel

/-- `eval_if_stmt`: the condition must be a Bool (checked at the if-node's
position); a non-True condition yields Nil without running the body. -/
def eval_if_stmt (fuel : Nat) (pos : Pos) (cond : Expression)
    (body : List Declaration) (ctx : Nat) (st : Store) : ERes :=
  match fuel with
  | 0 => (st, .fuelOut)
  | fuel + 1 =>
    match eval_expression fuel cond ctx st with
    | (st1, .ok v) =>
      match check_type v pos ["BoolValue"] "if expressions expect a boolean" with
      | some er => (st1, .err er)
      | none =>
        if boolPayload v then run_seq fuel body ctx st1
        else (st1, .ok .nil)
    | esc => esc
termination_by structural fuel

/-- One pass over a for-loop body: `BreakEscape` stops the loop (`broke`),
`ContinueEscape` stops the pass (`done`), everything else propagates. -/
def run_for_body (fuel : Nat) (ds : List Declaration) (ctx : Nat) (st : Store) :
    Store × ForBodyRes :=
  match fuel with
  | 0 => (st, .esc .fuelOut)
  | fuel + 1 =>
    match ds with
    | [] => (st, .done)
    | d :: rest =>
      match eval_declaration fuel d ctx st with
      | (st1, .ok _) => run_for_body fuel rest ctx st1
      | (st1, .brk) => (st1, .broke)
      | (st1, .cont) => (st1, .done)
      | (st1, r) => (st1, .esc r)
termination_by structural fuel

/-- The `while True:` loop of `eval_for_stmt`: test the limit (must be a
Bool, checked at the limit statement's position), run the body, then the
increment; a `break` in the body yields Nil immediately (no increment). -/
def eval_for_loop (fuel : Nat) (limit : ExpressionStmt) (incr : Expression)
    (body : List Declaration) (forCtx : Nat) (st : Store) : ERes :=
  match fuel with
  | 0 => (st, .fuelOut)
  | fuel + 1 =>
    match eval_expression_stmt fuel limit forCtx st with
    | (st1, .ok v) =>
      match check_type v limit.posOf ["BoolValue"] "expected boolean" with
      | some er => (st1, .err er)
      | none =>
        if boolPayload v then
          match run_for_body fuel body forCtx st1 with
          | (st2, .broke) => (st2, .ok .nil)
          | (st2, .done) =>
            match eval_expression fuel incr forCtx st2 with
            | (st3, .ok _) => eval_for_loop fuel limit incr body forCtx st3
            | esc => esc
          | (st2, .esc r) => (st2, r)
        else (st1, .ok .nil)
    | esc => esc
termination_by structural fuel

/-- `eval_for_stmt`: one fresh child scope per loop (shared by every
iteration), init statement once, then the loop. -/
def eval_for_stmt (fuel : Nat) (init : ExpressionStmt) (limit : ExpressionStmt)
    (incr : Expression) (body : List Declaration) (ctx : Nat) (st : Store) : ERes :=
  match fuel with
  | 0 => (st, .fuelOut)
  | fuel + 1 =>
    match get_child_context st ctx with
    | (st1, forCtx) =>
      match eval_expression_stmt fuel init forCtx st1 with
      | (st2, .ok _) => eval_for_loop fuel limit incr body forCtx st2
      | esc => esc
termination_by structural fuel

/-- `eval_statement`: dispatch; `break_stmt`/`continue_stmt` raise their
escapes. -/
def eval_statement (fuel : Nat) (s : Statement) (ctx : Nat) (st : Store) : ERes :=
  match fuel with
  | 0 => (st, .fuelOut)
  | fuel + 1 =>
    match s with
    | .exprStmt es => eval_expression_stmt fuel es ctx st
    | .returnStmt _ oe => eval_return_stmt fuel oe ctx st
    | .ifStmt pos cond body => eval_if_stmt fuel pos cond body ctx st
    | .forStmt _ init limit incr body => eval_for_stmt fuel init limit incr body ctx st
    | .breakStmt _ => (st, .brk)
    | .continueStmt _ => (st, .cont)
termination_by structural fuel

/-- `eval_function` (via `eval_fun_decl`): create the captured
`function_context` as a child of the defining context — fixed here, at
definition time — and bind the function name in the defining context.
Calls happen later through `call_as_func` on the stored closure. -/
def eval_function (fuel : Nat) (fd : FunDecl) (ctx : Nat) (st : Store) : ERes :=
  match fuel with
  | 0 => (st, .fuelOut)
  | _ + 1 =>
    match get_child_context st ctx with
    | (st1, fIdx) =>
      match fd with
      | .mk name params body =>
        match context_set st1 ctx name (.fn (.user fIdx params body)) with
        | some st2 => (st2, .ok .nil)
        | none => (st1, .ill "scope chain")

/-- `eval_declaration`: a statement or a function declaration. -/
def eval_declaration (fuel : Nat) (d : Declaration) (ctx : Nat) (st : Store) : ERes :=
  match fuel with
  | 0 => (st, .fuelOut)
  | fuel + 1 =>
    match d with
    | .stmt s => eval_statement fuel s ctx st
    | .fdecl _ f => eval_function fuel f ctx st
termination_by structural fuel

/-- `eval_program`: run the declarations in order keeping the last value;
a `BreakEscape`/`ContinueEscape` reaching the top is converted to the
ScopeEscape `LanguageError` at the offending declaration's position; note
that a `ReturnEscape` is NOT caught here and keeps propagating. -/
def eval_program (fuel : Nat) (ds : List Declaration) (ctx : Nat) (st : Store)
    (last : Value) : ERes :=
  match fuel with
  | 0 => (st, .fuelOut)
  | fuel + 1 =>
    match ds with
    | [] => (st, .ok last)
    | d :: rest =>
      match eval_declaration fuel d ctx st with
      | (st1, .ok v) => eval_program fuel rest ctx st1 v
      | (st1, .brk) =>
        (st1, .err ⟨d.posOf.line, d.posOf.column,
          "can't use 'break' outside of for loop body"⟩)
      | (st1, .cont) =>
        (st1, .err ⟨d.posOf.line, d.posOf.column,
          "can't use 'continue' outside of for loop body"⟩)
      | (st1, r) => (st1, r)

termination_by structural fuel
end

/- ===================== Driver (`interpret`) ===================== -/

/-- Final result of `interpret`: the program's value, a rendered
`LanguageError` (the only exception `interpret` catches), or any other
exception escaping `interpret` — crashing the host process. -/
inductive InterpRes where
  | value (v : Value)
  | error (e : Err)
  | crash (r : EvalRes)

/-- The built-ins in the registration order of `inject_builtins`. -/
def builtin_table : List (String × BuiltinF) :=
  [("log", .log), ("dict", .dict), ("list", .list), ("mut", .mut), ("at", .at),
   ("keys", .keys), ("vals", .vals), ("read", .read), ("write", .write),
   ("join", .join), ("len", .len)]

/-- `inject_builtins`: `context.set` each built-in on the root context. -/
def inject_builtins (st : Store) : Option Store :=
  builtin_table.foldlM
    (fun s kv => context_set s 0 kv.1 (.fn (.builtin kv.2))) st

/- AST construction helpers: wrap a node of one precedence level in the
single-child delegating nodes of the levels above it (the parse tree a
lone literal/call produces). -/

def Call.toExpr (c : Call) : Expression :=
  .mk (.orE (.one (.one (.one (.one (.one (.one (.one c))))))))

def Call.toUnary (c : Call) : Unary := .one c

def Call.toFactor (c : Call) : Factor := .one (.one c)

def Call.toTerm (c : Call) : Term := .one (.one (.one c))

def Call.toComparison (c : Call) : Comparison := .one (.one (.one (.one c)))

def Term.toExpr (t : Term) : Expression :=
  .mk (.orE (.one (.one (.one (.one t)))))

def Factor.toExpr (f : Factor) : Expression := Term.toExpr (.one f)

def Comparison.toExpr (c : Comparison) : Expression :=
  .mk (.orE (.one (.one (.one c))))

def Equality.toExpr (e : Equality) : Expression := .mk (.orE (.one (.one e)))

def Expression.asgn : Expression → Assignment
  | .mk a => a

def identC (p : Pos) (n : String) : Call := .one (.prim (.ident p n))

def numC (p : Pos) (i : Int) : Call := .one (.num p (PyNum.ofInt i))

def strC (p : Pos) (s : String) : Call := .one (.strL p s)

def parenC (p : Pos) (e : Expression) : Call := .one (.prim (.paren p e))

def identE (p : Pos) (n : String) : Expression := Call.toExpr (identC p n)

def numE (p : Pos) (i : Int) : Expression := Call.toExpr (numC p i)

def strE (p : Pos) (s : String) : Expression := Call.toExpr (strC p s)

def callE (p : Pos) (n : String) (argss : List (List Expression)) : Expression :=
  Call.toExpr (.chain (.ident p n) argss)

def assignE (p : Pos) (n : String) (rhs : Expression) : Expression :=
  .mk (.assign p n rhs.asgn)

def addE (l r : Call) : Expression :=
  Term.toExpr (.addB (Call.toFactor l) (Call.toFactor r))

def ltE (l r : Call) : Expression :=
  Comparison.toExpr (.ltB (Call.toTerm l) (Call.toTerm r))

def eqE (l r : Call) : Expression :=
  Equality.toExpr (.eqB (Call.toComparison l) (Call.toComparison r))

def divE (l r : Call) : Expression :=
  Factor.toExpr (.divB (Call.toUnary l) (Call.toUnary r))

def exprStmtD (p : Pos) (e : Expression) : Declaration :=
  .stmt (.exprStmt (.mk p (some e)))

def returnD (p : Pos) (e : Option Expression) : Declaration :=
  .stmt (.returnStmt p e)

/-- The body of the standard-library source evaluated by `inject_std_lib`,
with the positions of its embedded source string:

    fun read_all(file_path)
        ret = "";
        fun each_chunk(chunk)
            ret = join(ret, chunk);
        nuf
        read(file_path, each_chunk);
        return ret;
    nuf
-/
def stdlib_body : List Declaration :=
  [exprStmtD ⟨3, 9⟩ (assignE ⟨3, 9⟩ "ret" (strE ⟨3, 15⟩ "")),
   .fdecl ⟨4, 9⟩ (.mk "each_chunk" ["chunk"] [
     exprStmtD ⟨5, 13⟩ (assignE ⟨5, 13⟩ "ret"
       (callE ⟨5, 19⟩ "join" [[identE ⟨5, 24⟩ "ret", identE ⟨5, 29⟩ "chunk"]]))]),
   exprStmtD ⟨7, 9⟩ (callE ⟨7, 9⟩ "read"
     [[identE ⟨7, 14⟩ "file_path", identE ⟨7, 25⟩ "each_chunk"]]),
   returnD ⟨8, 9⟩ (some (identE ⟨8, 16⟩ "ret"))]

def stdlib_read_all : Declaration :=
  .fdecl ⟨2, 5⟩ (.mk "read_all" ["file_path"] stdlib_body)

/-- The root context's lookup table after `inject_builtins` has run on a
fresh root: the eleven built-ins in registration order.  The theorem
`inject_builtins_builds_root` below certifies this is exactly what
`inject_builtins` produces. -/
def root_frame : Frame :=
  ⟨none,
   [("log", .fn (.builtin .log)), ("dict", .fn (.builtin .dict)),
    ("list", .fn (.builtin .list)), ("mut", .fn (.builtin .mut)),
    ("at", .fn (.builtin .at)), ("keys", .fn (.builtin .keys)),
    ("vals", .fn (.builtin .vals)), ("read", .fn (.builtin .read)),
    ("write", .fn (.builtin .write)), ("join", .fn (.builtin .join)),
    ("len", .fn (.builtin .len))]⟩

/-- `get_context`: a fresh root context with the built-ins and the
standard library injected (`inject_all`). -/
def get_context (fuel : Nat) : Store × EvalRes :=
  match eval_program fuel [stdlib_read_all] 0 [root_frame] .nil with
  | (st2, .ok _) => (st2, .ok .nil)
  | other => other

/-- `interpret`: build the context, evaluate the program, return its last
value; a `LanguageError` (from anywhere inside the `try`, the context
construction included) is caught and returned as the terminal result; any
other exception escapes (`crash`).  The parser, the `debug`/`profile`
options and the profile report are outside this model. -/
def interpret (prog : List Declaration) (fuel : Nat) : InterpRes :=
  match get_context fuel with
  | (st1, .ok _) =>
    match eval_program fuel prog 0 st1 .nil with
    | (_, .ok v) => .value v
    | (_, .err e) => .error e
    | (_, r) => .crash r
  | (_, .err e) => .error e
  | (_, r) => .crash r


/- ===================== Fixture programs =====================

Each fixture is the syntax tree of the nodots source shown in its doc
comment, with the line/column positions the parser would attach. -/

/-- tests.py closure test:

    fun closure()
      z = 0;
      fun inner()
        z = z + 1;
        return z;
      nuf
      return inner;
    nuf
    closure()();
-/
def closureProg : List Declaration :=
  [.fdecl ⟨1, 1⟩ (.mk "closure" [] [
     exprStmtD ⟨2, 3⟩ (assignE ⟨2, 3⟩ "z" (numE ⟨2, 7⟩ 0)),
     .fdecl ⟨3, 3⟩ (.mk "inner" [] [
       exprStmtD ⟨4, 5⟩ (assignE ⟨4, 5⟩ "z" (addE (identC ⟨4, 9⟩ "z") (numC ⟨4, 13⟩ 1))),
       returnD ⟨5, 5⟩ (some (identE ⟨5, 12⟩ "z"))]),
     returnD ⟨7, 3⟩ (some (identE ⟨7, 10⟩ "inner"))]),
   exprStmtD ⟨9, 1⟩ (callE ⟨9, 1⟩ "closure" [[], []])]

/-- Two closures from one invocation sharing one captured variable:

    fun outer()
      x = 0;
      fun inc()
        x = x + 1;
      nuf
      fun get()
        return x;
      nuf
      return list(inc, get);
    nuf
    fns = outer();
    at(fns, 0)();
    at(fns, 1)();

The final `get` call observes `inc`'s mutation of the shared `x` (1). -/
def shareProg : List Declaration :=
  [.fdecl ⟨1, 1⟩ (.mk "outer" [] [
     exprStmtD ⟨2, 3⟩ (assignE ⟨2, 3⟩ "x" (numE ⟨2, 7⟩ 0)),
     .fdecl ⟨3, 3⟩ (.mk "inc" [] [
       exprStmtD ⟨4, 5⟩ (assignE ⟨4, 5⟩ "x" (addE (identC ⟨4, 9⟩ "x") (numC ⟨4, 13⟩ 1)))]),
     .fdecl ⟨6, 3⟩ (.mk "get" [] [
       returnD ⟨7, 5⟩ (some (identE ⟨7, 12⟩ "x"))]),
     returnD ⟨9, 3⟩ (some (callE ⟨9, 10⟩ "list"
       [[identE ⟨9, 15⟩ "inc", identE ⟨9, 20⟩ "get"]]))]),
   exprStmtD ⟨11, 1⟩ (assignE ⟨11, 1⟩ "fns" (callE ⟨11, 7⟩ "outer" [[]])),
   exprStmtD ⟨12, 1⟩ (Call.toExpr (.chain (.ident ⟨12, 1⟩ "at")
     [[identE ⟨12, 4⟩ "fns", numE ⟨12, 9⟩ 0], []])),
   exprStmtD ⟨13, 1⟩ (Call.toExpr (.chain (.ident ⟨13, 1⟩ "at")
     [[identE ⟨13, 4⟩ "fns", numE ⟨13, 9⟩ 1], []]))]

/-- A closure's captured scope persisting across separate calls:

    fun counter()
      z = 0;
      fun inner()
        z = z + 1;
        return z;
      nuf
      return inner;
    nuf
    f = counter();
    f();
    f();

The second call yields 2. -/
def persistProg : List Declaration :=
  [.fdecl ⟨1, 1⟩ (.mk "counter" [] [
     exprStmtD ⟨2, 3⟩ (assignE ⟨2, 3⟩ "z" (numE ⟨2, 7⟩ 0)),
     .fdecl ⟨3, 3⟩ (.mk "inner" [] [
       exprStmtD ⟨4, 5⟩ (assignE ⟨4, 5⟩ "z" (addE (identC ⟨4, 9⟩ "z") (numC ⟨4, 13⟩ 1))),
       returnD ⟨5, 5⟩ (some (identE ⟨5, 12⟩ "z"))]),
     returnD ⟨7, 3⟩ (some (identE ⟨7, 10⟩ "inner"))]),
   exprStmtD ⟨9, 1⟩ (assignE ⟨9, 1⟩ "f" (callE ⟨9, 5⟩ "counter" [[]])),
   exprStmtD ⟨10, 1⟩ (callE ⟨10, 1⟩ "f" [[]]),
   exprStmtD ⟨11, 1⟩ (callE ⟨11, 1⟩ "f" [[]])]

/-- `return 1;` at the outermost program level. -/
def returnTopProg : List Declaration :=
  [returnD ⟨1, 1⟩ (some (numE ⟨1, 8⟩ 1))]

/-- `break;` at the outermost program level. -/
def breakTopProg : List Declaration := [.stmt (.breakStmt ⟨1, 1⟩)]

/-- `continue;` at the outermost program level. -/
def continueTopProg : List Declaration := [.stmt (.continueStmt ⟨1, 1⟩)]

/-- `at(dict(1, "x"), 1);` -/
def dictNumKeyProg : List Declaration :=
  [exprStmtD ⟨1, 1⟩ (callE ⟨1, 1⟩ "at"
    [[Call.toExpr (.chain (.ident ⟨1, 4⟩ "dict") [[numE ⟨1, 9⟩ 1, strE ⟨1, 12⟩ "x"]]),
      numE ⟨1, 18⟩ 1]])]

/-- `true == 1;` -/
def boolNumEqProg : List Declaration :=
  [exprStmtD ⟨1, 1⟩ (eqE (.one (.ctrue ⟨1, 1⟩)) (numC ⟨1, 9⟩ 1))]

/-- `list() == list();` -/
def emptyListEqProg : List Declaration :=
  [exprStmtD ⟨1, 1⟩ (eqE (.chain (.ident ⟨1, 1⟩ "list") [[]])
    (.chain (.ident ⟨1, 11⟩ "list") [[]]))]

/-- tests.py lexical-break test:

    for (i = 0; i < 5; i = i + 1) fun b() break; nuf b(); rof
-/
def breakFnLoopProg : List Declaration :=
  [.stmt (.forStmt ⟨1, 1⟩
    (.mk ⟨1, 6⟩ (some (assignE ⟨1, 6⟩ "i" (numE ⟨1, 10⟩ 0))))
    (.mk ⟨1, 13⟩ (some (ltE (identC ⟨1, 13⟩ "i") (numC ⟨1, 17⟩ 5))))
    (assignE ⟨1, 20⟩ "i" (addE (identC ⟨1, 24⟩ "i") (numC ⟨1, 28⟩ 1)))
    [.fdecl ⟨1, 31⟩ (.mk "b" [] [.stmt (.breakStmt ⟨1, 39⟩)]),
     exprStmtD ⟨1, 50⟩ (callE ⟨1, 50⟩ "b" [[]])])]

/-- tests.py lexical-continue test:

    for (i = 0; i < 5; i = i + 1) fun b() continue; nuf b(); rof
-/
def continueFnLoopProg : List Declaration :=
  [.stmt (.forStmt ⟨1, 1⟩
    (.mk ⟨1, 6⟩ (some (assignE ⟨1, 6⟩ "i" (numE ⟨1, 10⟩ 0))))
    (.mk ⟨1, 13⟩ (some (ltE (identC ⟨1, 13⟩ "i") (numC ⟨1, 17⟩ 5))))
    (assignE ⟨1, 20⟩ "i" (addE (identC ⟨1, 24⟩ "i") (numC ⟨1, 28⟩ 1)))
    [.fdecl ⟨1, 31⟩ (.mk "b" [] [.stmt (.continueStmt ⟨1, 39⟩)]),
     exprStmtD ⟨1, 53⟩ (callE ⟨1, 53⟩ "b" [[]])])]

/-- `(0 / 0);` -/
def divZeroProg : List Declaration :=
  [exprStmtD ⟨1, 1⟩ (Call.toExpr (parenC ⟨1, 1⟩
    (divE (numC ⟨1, 2⟩ 0) (numC ⟨1, 6⟩ 0))))]

/-- `join("a", 1);` -/
def joinStrNumProg : List Declaration :=
  [exprStmtD ⟨1, 1⟩ (callE ⟨1, 1⟩ "join" [[strE ⟨1, 6⟩ "a", numE ⟨1, 11⟩ 1]])]

/-- A self-recursive function with no base case:

    fun f()
      f();
    nuf
    f();
-/
def recFnBody : List Declaration := [exprStmtD ⟨2, 3⟩ (callE ⟨2, 3⟩ "f" [[]])]

def recProg : List Declaration :=
  [.fdecl ⟨1, 1⟩ (.mk "f" [] recFnBody),
   exprStmtD ⟨4, 1⟩ (callE ⟨4, 1⟩ "f" [[]])]

/-- `a = b = 5; b;` -/
def chainAssignBProg : List Declaration :=
  [exprStmtD ⟨1, 1⟩ (assignE ⟨1, 1⟩ "a" (assignE ⟨1, 5⟩ "b" (numE ⟨1, 9⟩ 5))),
   exprStmtD ⟨1, 12⟩ (identE ⟨1, 12⟩ "b")]

/-- `a = b = 5; a;` -/
def chainAssignAProg : List Declaration :=
  [exprStmtD ⟨1, 1⟩ (assignE ⟨1, 1⟩ "a" (assignE ⟨1, 5⟩ "b" (numE ⟨1, 9⟩ 5))),
   exprStmtD ⟨1, 12⟩ (identE ⟨1, 12⟩ "a")]

/- ===================== Spec-side formalisations =====================

Definitions written from the claims' words (not from the source), used to
STATE properties of the source-translated definitions above. -/

/-- Well-formed store: every frame's parent was created earlier.  Every
store the interpreter builds satisfies this (`get_child_context` appends,
with the creating frame as parent). -/
def WFStore (st : Store) : Prop :=
  ∀ (i : Nat) (fr : Frame) (p : Nat), st[i]? = some fr → fr.parent = some p → p < i

/-- The scope chain from a frame outward through parent links, as the list
of visited frame indices (bounded walk). -/
def chain_aux (st : Store) : Nat → Nat → List Nat
  | 0, _ => []
  | fuel + 1, cur =>
    match st[cur]? with
    | none => []
    | some fr =>
      cur :: (match fr.parent with
              | some p => chain_aux st fuel p
              | none => [])

/-- The scope chain of a frame (adequately bounded on well-formed stores). -/
def chain (st : Store) (idx : Nat) : List Nat := chain_aux st st.length idx

/-- The first frame on the chain from `idx` outward that binds `key`
(the claim's "first existing binding of that name"). -/
def first_bound_aux (st : Store) : Nat → Nat → String → Option Nat
  | 0, _, _ => none
  | fuel + 1, cur, key =>
    match st[cur]? with
    | none => none
    | some fr =>
      if (pyDictFind BEq.beq fr.lookup key).isSome then some cur
      else
        match fr.parent with
        | some p => first_bound_aux st fuel p key
        | none => none

def first_bound (st : Store) (idx : Nat) (key : String) : Option Nat :=
  first_bound_aux st st.length idx key

/-- Rebind `key` to `v` inside frame `i` only, leaving every other frame,
the frame's parent link, and (by `pyDictSet`) every other key unchanged. -/
def frame_update (st : Store) (i : Nat) (key : String) (v : Value) : Store :=
  match st[i]? with
  | some fr => st.set i ⟨fr.parent, pyDictSet BEq.beq fr.lookup key v⟩
  | none => st

/- ===================== Concrete stores for the recursion fixture ===== -/

/-- The `read_all` closure value the standard-library injection creates
(its captured `function_context` is frame 1). -/
def read_all_val : Value := .fn (.user 1 ["file_path"] stdlib_body)

/-- The root frame after `get_context` (built-ins plus `read_all`). -/
def ctx_frame0 : Frame :=
  ⟨none, root_frame.lookup ++ [("read_all", read_all_val)]⟩

/-- The store `get_context` produces: the root and `read_all`'s captured
frame. -/
def ctx_store : Store := [ctx_frame0, ⟨some 0, []⟩]

/-- The closure value of `f` in `recProg` (captured frame 2). -/
def recFnVal : Value := .fn (.user 2 [] recFnBody)

/-- The store after `recProg`'s `fun f() ... nuf` has been evaluated. -/
def recS0 : Store :=
  [⟨none, ctx_frame0.lookup ++ [("f", recFnVal)]⟩, ⟨some 0, []⟩, ⟨some 0, []⟩]

/-- Invariant of every store reached during `recProg`'s recursion: `f` is
bound to its closure in the root, `f`'s captured frame 2 is an empty child
of the root, and only call frames have been appended beyond the first
three.  (The recursion neither assigns nor allocates anything else.) -/
def RecStore (st : Store) : Prop :=
  st[0]? = some ⟨none, ctx_frame0.lookup ++ [("f", recFnVal)]⟩
    ∧ st[2]? = some ⟨some 0, []⟩
    ∧ ∃ n, st.length = n + 3

/- Equation lemmas of the executable definitions, for computing evaluation
results by rewriting. -/

attribute [simp] PyNum.ofInt PyNum.add PyNum.sub PyNum.mul PyNum.neg PyNum.div
  PyNum.beq PyNum.blt PyNum.ble PyNum.isZero PyNum.isInteger PyNum.toIndex
  PyNum.pyStr Primary.posOf CallLit.posOf Call.posOf Unary.posOf Factor.posOf
  Term.posOf Comparison.posOf Equality.posOf LogicAnd.posOf LogicOr.posOf
  Assignment.posOf Expression.posOf ExpressionStmt.posOf Statement.posOf
  Declaration.posOf DKey.beq className pyTypeName payloadStr render
  renderStrList renderObjList pyEq Value.equals Value.not_equals check_type
  boolPayload numPayload pyDictSet pyDictFind context_get_aux context_get
  context_set_aux context_set get_child_context BuiltinOut.toEvalRes exceptOut
  dictionary_pairs dictionary listof mut' at' keysof vals read write joinMsg
  join length apply_builtin eval_primary eval_arguments bind_args
  run_fun_body eval_applications eval_call eval_unary eval_factor eval_term
  eval_comparison eval_comparison_op eval_equality eval_logic_and eval_logic_or
  eval_assignment eval_expression eval_expression_stmt eval_return_stmt run_seq
  eval_if_stmt run_for_body eval_for_loop eval_for_stmt eval_statement
  eval_function eval_declaration eval_program builtin_table inject_builtins
  root_frame Call.toExpr Call.toUnary Call.toFactor Call.toTerm
  Call.toComparison Term.toExpr Factor.toExpr Comparison.toExpr Equality.toExpr
  Expression.asgn Except.map identC numC strC parenC identE numE strE callE assignE addE
  ltE eqE divE exprStmtD returnD stdlib_body stdlib_read_all get_context
  interpret closureProg shareProg persistProg returnTopProg breakTopProg
  continueTopProg dictNumKeyProg boolNumEqProg emptyListEqProg breakFnLoopProg
  continueFnLoopProg divZeroProg joinStrNumProg recFnBody recProg
  chainAssignBProg chainAssignAProg read_all_val ctx_frame0 ctx_store recFnVal
  recS0

/- ===================== Validation =====================

Sanity checks transcribing assertions of tests.py against the embedding
(each comment quotes the nodots source of the assertion). -/

/-- The literal `root_frame` is exactly what `inject_builtins` builds on a
fresh root context. -/
theorem inject_builtins_builds_root :
    inject_builtins [⟨none, []⟩] = some [root_frame] := rfl

/-- `get_context` terminates on the literal `ctx_store` (the root context
after built-in and standard-library injection). -/
theorem get_context_builds_ctx_store :
    get_context 50 = (ctx_store, .ok .nil) := rfl

-- `1;` → 1
example : interpret [exprStmtD ⟨1, 1⟩ (numE ⟨1, 1⟩ 1)] 50
    = .value (.num ⟨1, 1⟩) := rfl

-- `nil == nil;` → True
example : interpret
    [exprStmtD ⟨1, 1⟩ (eqE (.one (.cnil ⟨1, 1⟩)) (.one (.cnil ⟨1, 8⟩)))] 50
    = .value (.bool true) := rfl

-- `a;` → "1:1 [error] unknown variable 'a'"
example : interpret [exprStmtD ⟨1, 1⟩ (identE ⟨1, 1⟩ "a")] 50
    = .error ⟨1, 1, "unknown variable 'a'"⟩ := rfl

-- `b = 7; b();` → "1:8 [error] [(NumberValue: 7.0)] only functions are callable"
example : interpret
    [exprStmtD ⟨1, 1⟩ (assignE ⟨1, 1⟩ "b" (numE ⟨1, 5⟩ 7)),
     exprStmtD ⟨1, 8⟩ (callE ⟨1, 8⟩ "b" [[]])] 50
    = .error ⟨1, 8, "[(NumberValue: 7.0)] only functions are callable"⟩ := rfl

-- `a = 1; fun alter() a = 2; nuf alter(); a;` → 2
example : interpret
    [exprStmtD ⟨1, 1⟩ (assignE ⟨1, 1⟩ "a" (numE ⟨1, 5⟩ 1)),
     .fdecl ⟨1, 8⟩ (.mk "alter" []
       [exprStmtD ⟨1, 20⟩ (assignE ⟨1, 20⟩ "a" (numE ⟨1, 24⟩ 2))]),
     exprStmtD ⟨1, 31⟩ (callE ⟨1, 31⟩ "alter" [[]]),
     exprStmtD ⟨1, 40⟩ (identE ⟨1, 40⟩ "a")] 50
    = .value (.num ⟨2, 1⟩) := rfl

-- `a = 1; fun alter() b = 2; nuf alter(); b;` → "1:40 [error] unknown variable 'b'"
example : interpret
    [exprStmtD ⟨1, 1⟩ (assignE ⟨1, 1⟩ "a" (numE ⟨1, 5⟩ 1)),
     .fdecl ⟨1, 8⟩ (.mk "alter" []
       [exprStmtD ⟨1, 20⟩ (assignE ⟨1, 20⟩ "b" (numE ⟨1, 24⟩ 2))]),
     exprStmtD ⟨1, 31⟩ (callE ⟨1, 31⟩ "alter" [[]]),
     exprStmtD ⟨1, 40⟩ (identE ⟨1, 40⟩ "b")] 50
    = .error ⟨1, 40, "unknown variable 'b'"⟩ := rfl

-- `fun a(b, c) return b * c; nuf a(3, 4) * a(3, 4);` → 144
set_option maxHeartbeats 1000000 in
example : interpret
    [.fdecl ⟨1, 1⟩ (.mk "a" ["b", "c"]
      [returnD ⟨1, 13⟩ (some (Factor.toExpr (.mulB
        (Call.toUnary (identC ⟨1, 20⟩ "b")) (Call.toUnary (identC ⟨1, 24⟩ "c")))))]),
     exprStmtD ⟨1, 31⟩ (Factor.toExpr (.mulB
       (Call.toUnary (.chain (.ident ⟨1, 31⟩ "a") [[numE ⟨1, 33⟩ 3, numE ⟨1, 36⟩ 4]]))
       (Call.toUnary (.chain (.ident ⟨1, 41⟩ "a") [[numE ⟨1, 43⟩ 3, numE ⟨1, 46⟩ 4]]))))] 50
    = .value (.num ⟨144, 1⟩) := by simp [call_as_func]

-- `fun a() 1; 2; 3; 4; nuf a();` → None (no return: the call yields Nil)
example : interpret
    [.fdecl ⟨1, 1⟩ (.mk "a" []
      [exprStmtD ⟨1, 9⟩ (numE ⟨1, 9⟩ 1), exprStmtD ⟨1, 12⟩ (numE ⟨1, 12⟩ 2),
       exprStmtD ⟨1, 15⟩ (numE ⟨1, 15⟩ 3), exprStmtD ⟨1, 18⟩ (numE ⟨1, 18⟩ 4)]),
     exprStmtD ⟨1, 25⟩ (callE ⟨1, 25⟩ "a" [[]])] 50
    = .value .nil := rfl

-- `fun a() 1; 2; return 3; 0 / 0; nuf a();` → 3 (return short-circuits)
example : interpret
    [.fdecl ⟨1, 1⟩ (.mk "a" []
      [exprStmtD ⟨1, 9⟩ (numE ⟨1, 9⟩ 1), exprStmtD ⟨1, 12⟩ (numE ⟨1, 12⟩ 2),
       returnD ⟨1, 15⟩ (some (numE ⟨1, 22⟩ 3)),
       exprStmtD ⟨1, 25⟩ (divE (numC ⟨1, 25⟩ 0) (numC ⟨1, 29⟩ 0))]),
     exprStmtD ⟨1, 36⟩ (callE ⟨1, 36⟩ "a" [[]])] 50
    = .value (.num ⟨3, 1⟩) := rfl

-- `sum = 0; for (i = 0; i < 5; i = i + 1) sum = sum + i; rof sum;` → 10
set_option maxHeartbeats 1000000 in
example : interpret
    [exprStmtD ⟨1, 1⟩ (assignE ⟨1, 1⟩ "sum" (numE ⟨1, 7⟩ 0)),
     .stmt (.forStmt ⟨2, 1⟩
       (.mk ⟨2, 6⟩ (some (assignE ⟨2, 6⟩ "i" (numE ⟨2, 10⟩ 0))))
       (.mk ⟨2, 13⟩ (some (ltE (identC ⟨2, 13⟩ "i") (numC ⟨2, 17⟩ 5))))
       (assignE ⟨2, 20⟩ "i" (addE (identC ⟨2, 24⟩ "i") (numC ⟨2, 28⟩ 1)))
       [exprStmtD ⟨3, 3⟩ (assignE ⟨3, 3⟩ "sum"
         (addE (identC ⟨3, 9⟩ "sum") (identC ⟨3, 15⟩ "i")))]),
     exprStmtD ⟨5, 1⟩ (identE ⟨5, 1⟩ "sum")] 80
    = .value (.num ⟨10, 1⟩) := by simp [call_as_func]

-- `a = 0; for (i = 0; i < 5; i = i + 1) a = a + 1; break; rof a;` → 1
example : interpret
    [exprStmtD ⟨1, 1⟩ (assignE ⟨1, 1⟩ "a" (numE ⟨1, 5⟩ 0)),
     .stmt (.forStmt ⟨2, 1⟩
       (.mk ⟨2, 6⟩ (some (assignE ⟨2, 6⟩ "i" (numE ⟨2, 10⟩ 0))))
       (.mk ⟨2, 13⟩ (some (ltE (identC ⟨2, 13⟩ "i") (numC ⟨2, 17⟩ 5))))
       (assignE ⟨2, 20⟩ "i" (addE (identC ⟨2, 24⟩ "i") (numC ⟨2, 28⟩ 1)))
       [exprStmtD ⟨3, 3⟩ (assignE ⟨3, 3⟩ "a"
          (addE (identC ⟨3, 7⟩ "a") (numC ⟨3, 11⟩ 1))),
        .stmt (.breakStmt ⟨4, 3⟩)]),
     exprStmtD ⟨6, 1⟩ (identE ⟨6, 1⟩ "a")] 80
    = .value (.num ⟨1, 1⟩) := rfl

-- `a = 0; for (i = 0; i < 5; i = i + 1) continue; a = 1; rof a;` → 0
set_option maxHeartbeats 1000000 in
example : interpret
    [exprStmtD ⟨1, 1⟩ (assignE ⟨1, 1⟩ "a" (numE ⟨1, 5⟩ 0)),
     .stmt (.forStmt ⟨2, 1⟩
       (.mk ⟨2, 6⟩ (some (assignE ⟨2, 6⟩ "i" (numE ⟨2, 10⟩ 0))))
       (.mk ⟨2, 13⟩ (some (ltE (identC ⟨2, 13⟩ "i") (numC ⟨2, 17⟩ 5))))
       (assignE ⟨2, 20⟩ "i" (addE (identC ⟨2, 24⟩ "i") (numC ⟨2, 28⟩ 1)))
       [.stmt (.continueStmt ⟨3, 3⟩),
        exprStmtD ⟨4, 3⟩ (assignE ⟨4, 3⟩ "a" (numE ⟨4, 7⟩ 1))]),
     exprStmtD ⟨6, 1⟩ (identE ⟨6, 1⟩ "a")] 80
    = .value (.num ⟨0, 1⟩) := by simp [call_as_func]

-- `dict("a");` → "1:1 [error] dict expects an even number of args ..."
example : interpret [exprStmtD ⟨1, 1⟩ (callE ⟨1, 1⟩ "dict" [[strE ⟨1, 6⟩ "a"]])] 50
    = .error ⟨1, 1, "dict expects an even number of args e.g. `k, v, k, v`, got: ['(StringValue: a)']"⟩ := rfl

-- `join("a", "b");` → "ab"
example : interpret
    [exprStmtD ⟨1, 1⟩ (callE ⟨1, 1⟩ "join" [[strE ⟨1, 6⟩ "a", strE ⟨1, 11⟩ "b"]])] 50
    = .value (.str "ab") := rfl

-- `break;` → "1:1 [error] can't use 'break' outside of for loop body"
example : interpret breakTopProg 50
    = .error ⟨1, 1, "can't use 'break' outside of for loop body"⟩ := rfl

-- `continue;` → "1:1 [error] can't use 'continue' outside of for loop body"
example : interpret continueTopProg 50
    = .error ⟨1, 1, "can't use 'continue' outside of for loop body"⟩ := rfl

-- `(0 / 0);` → "1:2 [error] cannot divide by zero"
example : interpret divZeroProg 50 = .error ⟨1, 2, "cannot divide by zero"⟩ := rfl

/- ===================== Claim theorems ===================== -/

/-- C1: a user-defined function call evaluates its body in a fresh child
frame of the function's captured defining frame (never the caller's — the
call machinery receives no caller context at all), the captured frame being
the child of the defining context allocated once by `eval_function` and
stored immutably in the closure; consequently `closure()()` with an inner
increment-and-return function yields 1, two closures returned from one
invocation of an outer function observe mutations to the same captured
variable, and the captured scope persists across separate calls (1 then 2). -/
theorem closure_captures_defining_environment :
    (∀ (st : Store) (envIdx : Nat),
        (get_child_context st envIdx).2 = st.length
      ∧ st[st.length]? = none
      ∧ ((get_child_context st envIdx).1)[st.length]? = some ⟨some envIdx, []⟩
      ∧ ∀ j : Nat, j < st.length → ((get_child_context st envIdx).1)[j]? = st[j]?)
  ∧ (∀ (fuel : Nat) (name : String) (params : List String) (body : List Declaration)
        (ctx : Nat) (st : Store),
        eval_function (fuel + 1) (.mk name params body) ctx st
          = (match context_set (st ++ [⟨some ctx, []⟩]) ctx name
                (.fn (.user st.length params body)) with
             | some st2 => (st2, .ok .nil)
             | none => (st ++ [⟨some ctx, []⟩], .ill "scope chain")))
  ∧ (∀ (fuel : Nat) (pos : Pos) (envIdx : Nat) (body : List Declaration) (st : Store),
        call_as_func (fuel + 1) pos (.fn (.user envIdx [] body)) [] st
          = (match run_fun_body fuel body st.length (st ++ [⟨some envIdx, []⟩]) with
             | (st3, .fuelOut) =>
               (st3, .err ⟨pos.line, pos.column, "maximum recursion depth exceeded"⟩)
             | (st3, r) => (st3, r)))
  ∧ interpret closureProg 100 = .value (.num ⟨1, 1⟩)
  ∧ interpret shareProg 100 = .value (.num ⟨1, 1⟩)
  ∧ interpret persistProg 100 = .value (.num ⟨2, 1⟩) := by
  refine ⟨fun st envIdx => ⟨rfl, List.getElem?_eq_none (le_refl _),
    List.getElem?_concat_length st ⟨some envIdx, []⟩,
    fun j hj => by
      simp only [get_child_context]
      rw [List.getElem?_append]
      exact if_pos hj⟩,
    fun fuel name params body ctx st => rfl,
    fun fuel pos envIdx body st => rfl, ?_, ?_, ?_⟩
  · simp [call_as_func]
  · simp [call_as_func]
  · simp [call_as_func]

/-- C2 counterexample: a `return` at the outermost program level is NOT
converted to an error — `eval_program` catches only break/continue, and
`interpret` catches only `LanguageError`, so the `ReturnEscape` escapes
`interpret` (a host crash), contradicting the claim that `interpret`
returns a rendered language error as its terminal result. -/
theorem top_level_return_escapes :
    interpret returnTopProg 100 = .crash (.ret (.num ⟨1, 1⟩)) := by simp [call_as_func]

/-- C2 amended: the top-level boundary converts `break`/`continue` (never
raised inside a function body) to errors, and forwards a `ReturnEscape`
reaching the outermost program level: the return escape propagates out of
`interpret` uncaught rather than being rendered as a language error. -/
theorem top_level_return_uncaught_amended :
    (∀ (fuel : Nat) (d : Declaration) (ds : List Declaration) (ctx : Nat)
        (st st1 : Store) (v : Value),
        eval_declaration fuel d ctx st = (st1, .ret v) →
        eval_program (fuel + 1) (d :: ds) ctx st .nil = (st1, .ret v))
  ∧ interpret returnTopProg 100 = .crash (.ret (.num ⟨1, 1⟩))
  ∧ interpret breakTopProg 100
      = .error ⟨1, 1, "can't use 'break' outside of for loop body"⟩
  ∧ interpret continueTopProg 100
      = .error ⟨1, 1, "can't use 'continue' outside of for loop body"⟩ := by
  refine ⟨fun fuel d ds ctx st st1 v h => by simp only [eval_program, h], ?_, ?_, ?_⟩
  · simp [call_as_func]
  · simp [call_as_func]
  · simp [call_as_func]

/-- Witness for the amended C2 theorem at a concrete input: a top-level
`return 1;` declaration makes `eval_program` forward the return escape. -/
theorem top_level_return_uncaught_amended_witness :
    eval_program 21 [returnD ⟨1, 1⟩ (some (numE ⟨1, 8⟩ 1))] 0 [⟨none, []⟩] .nil
      = ([⟨none, []⟩], .ret (.num ⟨1, 1⟩)) :=
  top_level_return_uncaught_amended.1 20 (returnD ⟨1, 1⟩ (some (numE ⟨1, 8⟩ 1))) []
    0 [⟨none, []⟩] [⟨none, []⟩] (.num ⟨1, 1⟩) rfl

/-- C3: `dictionary` stores a Number key as its raw float payload (never
stringified), while `mut` and `at` stringify Number keys before the lookup;
consequently `at(dict(k, v), k)` returns Nil — not `v` — for every Number
key `k`, contradicting the claim (and the `Dict[str, Value]` payload type
annotation of `DictValue` in the source). -/
theorem dict_numeric_keys_not_normalized :
    (∀ (q : PyNum) (v : Value) (pos : Pos),
        dictionary pos [.num q, v] = .ok (.dict [(.n q, v)]))
  ∧ (∀ (q : PyNum) (v : Value) (pos : Pos) (entries : List (DKey × Value)),
        mut' pos [.dict entries, .num q, v]
          = .ok (.dict (pyDictSet DKey.beq entries (.s q.pyStr) v), .nil))
  ∧ (∀ (q : PyNum) (v : Value) (pos : Pos),
        at' pos [.dict [(.n q, v)], .num q] = .ok .nil)
  ∧ interpret dictNumKeyProg 100 = .value .nil := by
  refine ⟨fun q v pos => by simp [dictionary, dictionary_pairs, Except.map],
    fun q v pos entries => by simp [mut'],
    fun q v pos => by simp [at', pyDictFind, DKey.beq], by simp [call_as_func]⟩

/-- C5 counterexample: `Value.equals` compares the raw payloads with Python
`==`, under which a `bool` is an `int`: `true == 1` evaluates to Bool true,
not false, although the operands are of unlike kinds. -/
theorem bool_number_equality_counterexample :
    (Value.bool true).equals (.num (PyNum.ofInt 1)) = some (.bool true)
      ∧ interpret boolNumEqProg 100 = .value (.bool true) := by
  exact ⟨by simp, by simp [call_as_func]⟩

/-- C5 amended: `==`/`!=` never error; same-kind values of the scalar kinds
(nil/bool/number/string) compare structurally, and unlike kinds yield
false/true EXCEPT between a Bool and a Number, which compare numerically
(`true` as 1, `false` as 0) because Python bools are ints.  Same-kind
comparison of list/dict payloads is Python `==`, which is NOT structural:
it is the element-wise extension of host OBJECT IDENTITY (`Value` defines
no `__eq__`), so only the identity-independent cases are determined — two
empty payloads compare equal (`list() == list()` yields true), payloads of
different lengths compare unequal — while equal-length nonempty payloads,
and pairs of function closures, compare by the identity of host objects
(in the source `list(1) == list(1)` is false although the payloads are
structurally equal), which this aliasing-free model marks as outside the
model (`pyEq = none`). -/
theorem equality_across_kinds_amended :
    (∀ a b : Value, className a ≠ className b →
        ¬(className a = "BoolValue" ∧ className b = "NumberValue") →
        ¬(className a = "NumberValue" ∧ className b = "BoolValue") →
        a.equals b = some (.bool false) ∧ a.not_equals b = some (.bool true))
  ∧ (∀ (bb : Bool) (q : PyNum),
        (Value.bool bb).equals (.num q)
            = some (.bool ((PyNum.ofInt (if bb then 1 else 0)).beq q))
      ∧ (Value.num q).equals (.bool bb)
            = some (.bool (q.beq (PyNum.ofInt (if bb then 1 else 0)))))
  ∧ (∀ a b : Value, a.equals b = (pyEq a b).map (fun r => .bool r)
      ∧ a.not_equals b = (pyEq a b).map (fun r => .bool (!r)))
  ∧ (∀ x y : Bool, (Value.bool x).equals (.bool y) = some (.bool (x == y)))
  ∧ (∀ x y : PyNum, (Value.num x).equals (.num y) = some (.bool (x.beq y)))
  ∧ (∀ x y : String, (Value.str x).equals (.str y) = some (.bool (x == y)))
  ∧ Value.nil.equals .nil = some (.bool true)
  ∧ (Value.list []).equals (.list []) = some (.bool true)
  ∧ (Value.dict []).equals (.dict []) = some (.bool true)
  ∧ (∀ xs ys : List Value, xs.length ≠ ys.length →
        pyEq (.list xs) (.list ys) = some false)
  ∧ (∀ (x y : Value) (xs ys : List Value),
        (x :: xs).length = (y :: ys).length →
        pyEq (.list (x :: xs)) (.list (y :: ys)) = none)
  ∧ (∀ f g : FuncF, pyEq (.fn f) (.fn g) = none)
  ∧ interpret boolNumEqProg 100 = .value (.bool true)
  ∧ interpret emptyListEqProg 100 = .value (.bool true) := by
  refine ⟨?_, fun bb q => ⟨rfl, rfl⟩, fun a b => ⟨rfl, rfl⟩,
    fun x y => rfl, fun x y => rfl, fun x y => rfl, rfl, rfl, rfl,
    ?_, ?_, fun f g => rfl, by simp [call_as_func], by simp [call_as_func]⟩
  · intro a b h1 h2 h3
    cases a <;> cases b <;>
      simp_all [className, Value.equals, Value.not_equals, pyEq] <;>
      rename_i xs ys <;> rcases xs with _ | ⟨x, xs⟩ <;>
      rcases ys with _ | ⟨y, ys⟩ <;> simp_all [pyEq]
  · intro xs ys h
    rcases xs with _ | ⟨x, xs⟩ <;> rcases ys with _ | ⟨y, ys⟩ <;>
      simp_all [pyEq]
  · intro x y xs ys h
    simp [pyEq, h]

/-- Witness for the amended C5 theorem: a String compared with a Number is
an unlike-kind pair outside the Bool/Number exception, and yields false; a
one-element and a two-element list payload compare unequal; and equal-length
nonempty payloads are identity-dependent (outside the model). -/
theorem equality_across_kinds_amended_witness :
    ((Value.str "x").equals (.num (PyNum.ofInt 1)) = some (.bool false)
      ∧ (Value.str "x").not_equals (.num (PyNum.ofInt 1)) = some (.bool true))
    ∧ pyEq (.list [.nil]) (.list [.nil, .nil]) = some false
    ∧ pyEq (.list [.nil]) (.list [.nil]) = none :=
  ⟨equality_across_kinds_amended.1 (.str "x") (.num (PyNum.ofInt 1))
      (by simp [className]) (by simp [className]) (by simp [className]),
    equality_across_kinds_amended.2.2.2.2.2.2.2.2.2.1 [.nil] [.nil, .nil]
      (by decide),
    equality_across_kinds_amended.2.2.2.2.2.2.2.2.2.2.1 .nil .nil [] []
      (by decide)⟩

/-- C6: legality of break/continue is lexical — the function-call boundary
(`run_fun_body`, the body loop of the closure built by `eval_function`)
re-catches a `BreakEscape`/`ContinueEscape` bubbling out of any of its own
body statements and converts it to the ScopeEscape error at that statement's
position, never forwarding it to a loop enclosing the caller: a function
containing `break`/`continue` that is defined inside a loop but invoked
there fails with that error (mirrored from tests.py, including positions). -/
theorem break_continue_lexical_boundary :
    (∀ (fuel : Nat) (d : Declaration) (ds : List Declaration) (ctx : Nat)
        (st st1 : Store),
        eval_declaration fuel d ctx st = (st1, .brk) →
        run_fun_body (fuel + 1) (d :: ds) ctx st
          = (st1, .err ⟨d.posOf.line, d.posOf.column,
              "can't use 'break' outside of for loop body"⟩))
  ∧ (∀ (fuel : Nat) (d : Declaration) (ds : List Declaration) (ctx : Nat)
        (st st1 : Store),
        eval_declaration fuel d ctx st = (st1, .cont) →
        run_fun_body (fuel + 1) (d :: ds) ctx st
          = (st1, .err ⟨d.posOf.line, d.posOf.column,
              "can't use 'continue' outside of for loop body"⟩))
  ∧ interpret breakFnLoopProg 100
      = .error ⟨1, 39, "can't use 'break' outside of for loop body"⟩
  ∧ interpret continueFnLoopProg 100
      = .error ⟨1, 39, "can't use 'continue' outside of for loop body"⟩ := by
  refine ⟨fun fuel d ds ctx st st1 h => by simp only [run_fun_body, h],
    fun fuel d ds ctx st st1 h => by simp only [run_fun_body, h], ?_, ?_⟩
  · simp [call_as_func]
  · simp [call_as_func]

/-- Witness for C6 at concrete inputs: a bare `break;`/`continue;` body
statement makes the function-call boundary produce the ScopeEscape error. -/
theorem break_continue_lexical_boundary_witness :
    run_fun_body 3 [.stmt (.breakStmt ⟨1, 1⟩)] 0 []
      = ([], .err ⟨1, 1, "can't use 'break' outside of for loop body"⟩)
  ∧ run_fun_body 3 [.stmt (.continueStmt ⟨1, 1⟩)] 0 []
      = ([], .err ⟨1, 1, "can't use 'continue' outside of for loop body"⟩) :=
  ⟨break_continue_lexical_boundary.1 2 (.stmt (.breakStmt ⟨1, 1⟩)) [] 0 [] [] rfl,
   break_continue_lexical_boundary.2.1 2 (.stmt (.continueStmt ⟨1, 1⟩)) [] 0 [] [] rfl⟩

/-- C7: with both operands Numbers, `a / b` raises the divide-by-zero
`LanguageError` exactly when the divisor's payload equals zero (a fraction
is zero exactly when its numerator is), and otherwise yields the exact
quotient — `(a / b) * b == a` — rather than any IEEE infinity or NaN (the
source raises before any float special value can be produced). -/
theorem division_by_zero_iff_zero_divisor :
    (∀ a b : PyNum,
        eval_factor 10
            (.divB (Call.toUnary (identC ⟨1, 1⟩ "x")) (Call.toUnary (identC ⟨1, 5⟩ "y")))
            0 [⟨none, [("x", .num a), ("y", .num b)]⟩]
          = ([⟨none, [("x", .num a), ("y", .num b)]⟩],
             if b.n = 0 then .err ⟨1, 1, "cannot divide by zero"⟩
             else .ok (.num (a.div b))))
  ∧ (∀ a b : PyNum, a.d ≠ 0 → b.d ≠ 0 → b.n ≠ 0 → ((a.div b).mul b).beq a = true)
  ∧ interpret divZeroProg 100 = .error ⟨1, 2, "cannot divide by zero"⟩ := by
  refine ⟨?_, ?_, by simp [call_as_func]⟩
  · intro a b
    by_cases hb : b.n = 0 <;> simp [hb]
  · intro a b ha hb hbn
    rcases lt_or_ge b.n 0 with h | h
    · simp only [PyNum.div, PyNum.mul, PyNum.beq, if_pos h, beq_iff_eq]
      ring
    · simp only [PyNum.div, PyNum.mul, PyNum.beq, if_neg (not_lt_of_ge h), beq_iff_eq]
      ring

/-- Witness for C7's quotient identity at a concrete input: (6/3)·3 = 6. -/
theorem division_by_zero_iff_zero_divisor_witness :
    ((PyNum.div ⟨6, 1⟩ ⟨3, 1⟩).mul ⟨3, 1⟩).beq ⟨6, 1⟩ = true :=
  division_by_zero_iff_zero_divisor.2.1 ⟨6, 1⟩ ⟨3, 1⟩ (by decide) (by decide) (by decide)

/-- C8: `join` concatenates two Strings and concatenates two Lists in
order, but — because both inner type checks of the source re-test
`values[0]` where `values[1]` was intended — a String first argument with a
Number second reaches `str + float` and raises an uncaught host TypeError
(crashing `interpret`) instead of a language error, a List first argument
with a String second silently appends the string's characters as raw host
objects, and only a first argument that is neither String nor List reaches
the descriptive language error the claim promises for every mismatch. -/
theorem join_mismatched_kinds_host_error :
    (∀ (s1 s2 : String) (pos : Pos), join pos [.str s1, .str s2] = .ok (.str (s1 ++ s2)))
  ∧ (∀ (l1 l2 : List Value) (pos : Pos),
        join pos [.list l1, .list l2] = .ok (.list (l1 ++ l2)))
  ∧ (∀ (s : String) (q : PyNum) (pos : Pos),
        join pos [.str s, .num q]
          = .hostErr "TypeError: can only concatenate str (not \"float\") to str")
  ∧ (∀ (l : List Value) (s : String) (pos : Pos),
        join pos [.list l, .str s]
          = .ill "join appends each character of the str as a raw host object")
  ∧ (∀ (v : Value) (pos : Pos),
        join pos [.nil, v] = .err ⟨pos.line, pos.column, joinMsg [.nil, v]⟩)
  ∧ interpret joinStrNumProg 100
      = .crash (.hostErr "TypeError: can only concatenate str (not \"float\") to str") := by
  refine ⟨fun s1 s2 pos => by simp [join], fun l1 l2 pos => by simp [join],
    fun s q pos => by simp [join], fun l s pos => by simp [join],
    fun v pos => by simp [join], by simp [call_as_func]⟩

/-- C10: an assignment expression with an identifier target itself
evaluates to Nil (the assigned value goes only into the environment), so
`a = b = 5;` binds `b` to 5 and `a` to Nil, and an assignment as the
program's final expression makes the program's result Nil. -/
theorem assignment_evaluates_to_nil :
    (∀ (fuel : Nat) (pos : Pos) (name : String) (rhs : Assignment) (ctx : Nat)
        (st st1 : Store) (v : Value) (st2 : Store),
        eval_assignment fuel rhs ctx st = (st1, .ok v) →
        context_set st1 ctx name v = some st2 →
        eval_assignment (fuel + 1) (.assign pos name rhs) ctx st = (st2, .ok .nil))
  ∧ interpret chainAssignBProg 100 = .value (.num ⟨5, 1⟩)
  ∧ interpret chainAssignAProg 100 = .value .nil := by
  refine ⟨fun fuel pos name rhs ctx st st1 v st2 h hset => ?_, by simp [call_as_func],
    by simp [call_as_func]⟩
  simp only [eval_assignment, h, hset]

/-- Witness for C10 at a concrete input: `b = 5` evaluates to Nil while
binding `b` to 5. -/
theorem assignment_evaluates_to_nil_witness :
    eval_assignment 21 (.assign ⟨1, 1⟩ "b" (numE ⟨1, 5⟩ 5).asgn) 0 [⟨none, []⟩]
      = ([⟨none, [("b", .num ⟨5, 1⟩)]⟩], .ok .nil) :=
  assignment_evaluates_to_nil.1 20 ⟨1, 1⟩ "b" (numE ⟨1, 5⟩ 5).asgn 0
    [⟨none, []⟩] [⟨none, []⟩] (.num ⟨5, 1⟩) [⟨none, [("b", .num ⟨5, 1⟩)]⟩] rfl rfl

/-- Witness for C1 at a concrete input: allocating a child of frame 0 in a
two-frame store leaves existing frames unchanged. -/
theorem closure_captures_defining_environment_witness :
    ((get_child_context [⟨none, []⟩, ⟨some 0, []⟩] 0).1)[1]? = some ⟨some 0, []⟩ :=
  ((closure_captures_defining_environment.1 [⟨none, []⟩, ⟨some 0, []⟩] 0).2.2.2 1
    (by decide)).trans rfl

/- ===================== C4: `Context.set` ===================== -/

/-- Python dict update binds the written key. -/
theorem pyDictFind_pyDictSet_self (l : List (String × Value)) (k : String) (v : Value) :
    pyDictFind BEq.beq (pyDictSet BEq.beq l k v) k = some v := by
  induction l with
  | nil => simp [pyDictSet, pyDictFind]
  | cons hd tl ih =>
    obtain ⟨k0, v0⟩ := hd
    by_cases h : (k0 == k) = true
    · simp [pyDictSet, pyDictFind, h]
    · simp only [pyDictSet, pyDictFind, h, if_neg, Bool.false_eq_true, ite_false]
      simpa [pyDictFind, h] using ih

/-- Python dict update leaves every other key unchanged. -/
theorem pyDictFind_pyDictSet_other (l : List (String × Value)) (k k' : String)
    (v : Value) (h : k' ≠ k) :
    pyDictFind BEq.beq (pyDictSet BEq.beq l k v) k' = pyDictFind BEq.beq l k' := by
  have hkk' : (k == k') = false := by
    simpa using fun he => h he.symm
  induction l with
  | nil => simp [pyDictSet, pyDictFind, hkk']
  | cons hd tl ih =>
    obtain ⟨k0, v0⟩ := hd
    by_cases h0 : (k0 == k) = true
    · have : k0 = k := by simpa using h0
      subst this
      simp [pyDictSet, pyDictFind, hkk']
    · by_cases h1 : (k0 == k') = true
      · simp [pyDictSet, pyDictFind, h0, h1]
      · simp only [pyDictSet, pyDictFind, h0, h1, Bool.false_eq_true, ite_false]
        simpa [pyDictFind, h1] using ih

/-- `frame_update` preserves the number of frames. -/
theorem frame_update_length (st : Store) (i : Nat) (key : String) (v : Value) :
    (frame_update st i key v).length = st.length := by
  unfold frame_update
  rcases h : st[i]? with _ | fr
  · rfl
  · exact List.length_set ..

/-- `frame_update` leaves every other frame unchanged. -/
theorem frame_update_other (st : Store) (i : Nat) (key : String) (v : Value)
    (j : Nat) (h : j ≠ i) :
    (frame_update st i key v)[j]? = st[j]? := by
  unfold frame_update
  rcases hfr : st[i]? with _ | fr
  · rfl
  · exact List.getElem?_set_ne (fun he => h he.symm)

/-- `frame_update` replaces exactly the target frame's lookup (its parent
link untouched). -/
theorem frame_update_self (st : Store) (i : Nat) (key : String) (v : Value)
    (fr : Frame) (h : st[i]? = some fr) :
    (frame_update st i key v)[i]?
      = some ⟨fr.parent, pyDictSet BEq.beq fr.lookup key v⟩ := by
  unfold frame_update
  rw [h]
  have hi : i < st.length := by
    by_contra hge
    rw [List.getElem?_eq_none (Nat.le_of_not_lt hge)] at h
    cases h
  simp [hi]

/-- The walk of `context_set_aux` reaches exactly the frame `first_bound_aux`
names (or the starting frame when the key is bound nowhere on the chain),
given a well-formed store and enough fuel. -/
theorem context_set_aux_eq_first_bound (st : Store) (selfIdx : Nat) (key : String)
    (v : Value) (hw : WFStore st) (hself : selfIdx < st.length) :
    ∀ fuel cur : Nat, cur < st.length → cur < fuel →
      context_set_aux st selfIdx fuel cur key v
        = some (frame_update st ((first_bound_aux st fuel cur key).getD selfIdx) key v) := by
  intro fuel
  induction fuel with
  | zero => intro cur _ h0; omega
  | succ fuel ih =>
    intro cur hcur _
    have hfr : st[cur]? = some st[cur] := List.getElem?_eq_getElem hcur
    by_cases hk : (pyDictFind BEq.beq (st[cur]).lookup key).isSome
    · simp only [context_set_aux, first_bound_aux, hfr, hk, ite_true, Option.getD_some,
        frame_update]
    · rcases hp : (st[cur]).parent with _ | p
      · have hsfr : st[selfIdx]? = some st[selfIdx] := List.getElem?_eq_getElem hself
        simp only [context_set_aux, first_bound_aux, hfr, hk, Bool.false_eq_true, ite_false,
          hp, Option.getD_none, frame_update, hsfr]
      · have hpc : p < cur := hw cur st[cur] p hfr hp
        have := ih p (by omega) (by omega)
        simp only [context_set_aux, first_bound_aux, hfr, hk, Bool.false_eq_true, ite_false,
          hp, this]

/-- `first_bound_aux` names the first frame on the chain binding the key:
every chain frame strictly before it is unbound, it is bound, and when it
is `none` every chain frame is unbound. -/
theorem first_bound_aux_chain (st : Store) (key : String) :
    ∀ fuel cur : Nat,
      (∀ i, first_bound_aux st fuel cur key = some i →
        ∃ pre post, chain_aux st fuel cur = pre ++ i :: post
          ∧ (∀ j ∈ pre, pyDictFind BEq.beq ((st[j]?.getD ⟨none, []⟩).lookup) key = none)
          ∧ (pyDictFind BEq.beq ((st[i]?.getD ⟨none, []⟩).lookup) key).isSome)
      ∧ (first_bound_aux st fuel cur key = none →
        ∀ j ∈ chain_aux st fuel cur,
          pyDictFind BEq.beq ((st[j]?.getD ⟨none, []⟩).lookup) key = none) := by
  intro fuel
  induction fuel with
  | zero =>
    intro cur
    exact ⟨fun i h => (nomatch h), fun _ j hj => nomatch hj⟩
  | succ fuel ih =>
    intro cur
    rcases hfr : st[cur]? with _ | fr
    · refine ⟨fun i h => ?_, fun _ j hj => ?_⟩
      · simp [first_bound_aux, hfr] at h
      · simp [chain_aux, hfr] at hj
    · by_cases hk : (pyDictFind BEq.beq fr.lookup key).isSome
      · refine ⟨fun i h => ?_, fun h => ?_⟩
        · simp only [first_bound_aux, hfr, hk, ite_true, Option.some.injEq] at h
          subst h
          exact ⟨[], (match fr.parent with | some p => chain_aux st fuel p | none => []),
            by simp [chain_aux, hfr], by simp, by simp [hfr, hk]⟩
        · simp [first_bound_aux, hfr, hk] at h
      · have hkey : pyDictFind BEq.beq fr.lookup key = none := by
          rcases hfind : pyDictFind BEq.beq fr.lookup key with _ | w
          · rfl
          · exact absurd (by simp [hfind]) hk
        have hkf : (pyDictFind BEq.beq fr.lookup key).isSome = false := by
          simp [hkey]
        rcases hp : fr.parent with _ | p
        · refine ⟨fun i h => ?_, fun _ j hj => ?_⟩
          · simp [first_bound_aux, hfr, hkf, hp] at h
          · simp only [chain_aux, hfr, hp] at hj
            have : j = cur := by simpa using hj
            subst this
            simp [hfr, hkey]
        · refine ⟨fun i h => ?_, fun h j hj => ?_⟩
          · simp only [first_bound_aux, hfr, hkf, Bool.false_eq_true, ite_false, hp] at h
            obtain ⟨pre, post, hc, hpre, hi⟩ := (ih p).1 i h
            refine ⟨cur :: pre, post, ?_, ?_, hi⟩
            · simp [chain_aux, hfr, hp, hc]
            · intro j hj
              rcases List.mem_cons.mp hj with hj | hj
              · subst hj
                simp [hfr, hkey]
              · exact hpre j hj
          · simp only [first_bound_aux, hfr, hkf, Bool.false_eq_true, ite_false, hp] at h
            simp only [chain_aux, hfr, hp] at hj
            rcases List.mem_cons.mp hj with hj | hj
            · subst hj
              simp [hfr, hkey]
            · exact (ih p).2 h j hj

/-- C4: `Context.set` never fails on a well-formed store: it rewrites the
first frame on the scope chain (walked from the current frame outward) that
already binds the name, and when the name is bound nowhere on the chain it
creates the binding in the current (innermost) frame; all other frames,
parent links and bindings are untouched (`frame_update`/`pyDictSet` facts). -/
theorem context_set_first_binding_spec :
    (∀ (st : Store) (idx : Nat) (key : String) (v : Value),
        WFStore st → idx < st.length →
          context_set st idx key v
            = some (frame_update st ((first_bound st idx key).getD idx) key v))
  ∧ (∀ (st : Store) (idx : Nat) (key : String) (i : Nat),
        first_bound st idx key = some i →
          ∃ pre post, chain st idx = pre ++ i :: post
            ∧ (∀ j ∈ pre, pyDictFind BEq.beq ((st[j]?.getD ⟨none, []⟩).lookup) key = none)
            ∧ (pyDictFind BEq.beq ((st[i]?.getD ⟨none, []⟩).lookup) key).isSome)
  ∧ (∀ (st : Store) (idx : Nat) (key : String),
        first_bound st idx key = none →
          ∀ j ∈ chain st idx,
            pyDictFind BEq.beq ((st[j]?.getD ⟨none, []⟩).lookup) key = none)
  ∧ (∀ (st : Store) (i : Nat) (key : String) (v : Value),
        (frame_update st i key v).length = st.length)
  ∧ (∀ (st : Store) (i : Nat) (key : String) (v : Value) (j : Nat), j ≠ i →
        (frame_update st i key v)[j]? = st[j]?)
  ∧ (∀ (st : Store) (i : Nat) (key : String) (v : Value) (fr : Frame),
        st[i]? = some fr →
          (frame_update st i key v)[i]?
            = some ⟨fr.parent, pyDictSet BEq.beq fr.lookup key v⟩)
  ∧ (∀ (l : List (String × Value)) (k : String) (v : Value),
        pyDictFind BEq.beq (pyDictSet BEq.beq l k v) k = some v)
  ∧ (∀ (l : List (String × Value)) (k k' : String) (v : Value), k' ≠ k →
        pyDictFind BEq.beq (pyDictSet BEq.beq l k v) k' = pyDictFind BEq.beq l k') :=
  ⟨fun st idx key v hw hidx =>
      context_set_aux_eq_first_bound st idx key v hw hidx st.length idx hidx hidx,
   fun st idx key i h => (first_bound_aux_chain st key st.length idx).1 i h,
   fun st idx key h => (first_bound_aux_chain st key st.length idx).2 h,
   frame_update_length, frame_update_other, frame_update_self,
   pyDictFind_pyDictSet_self, pyDictFind_pyDictSet_other⟩

/-- Witness for C4 at a concrete input: assigning `a` from the inner frame
of a two-frame chain rewrites the root binding of `a` in place. -/
theorem context_set_first_binding_spec_witness :
    context_set [⟨none, [("a", .nil)]⟩, ⟨some 0, []⟩] 1 "a" (.bool true)
      = some (frame_update [⟨none, [("a", .nil)]⟩, ⟨some 0, []⟩]
          ((first_bound [⟨none, [("a", .nil)]⟩, ⟨some 0, []⟩] 1 "a").getD 1)
          "a" (.bool true)) :=
  context_set_first_binding_spec.1 [⟨none, [("a", .nil)]⟩, ⟨some 0, []⟩] 1 "a" (.bool true)
    (by
      intro i fr p h hp
      rcases i with _ | _ | i
      · cases h
        cases hp
      · cases h
        cases hp
        decide
      · cases h)
    (by decide)

/-- The store after `fun f() ... nuf` satisfies the recursion invariant. -/
theorem recS0_RecStore : RecStore recS0 := ⟨rfl, rfl, 0, rfl⟩

/-- Appending a call frame preserves the recursion invariant. -/
theorem RecStore_append (st : Store) (h : RecStore st) :
    RecStore (st ++ [⟨some 2, []⟩]) := by
  obtain ⟨h0, h2, n, hn⟩ := h
  refine ⟨?_, ?_, n + 1, by simp [hn]⟩
  · rw [List.getElem?_append, if_pos (by omega)]
    exact h0
  · rw [List.getElem?_append, if_pos (by omega)]
    exact h2

/-- Every pass of `recProg`'s recursion — the body `f();` of `f` run in a
fresh call frame over a store satisfying the invariant — either produces
the converted recursion-limit error (raised at the inner call site 2:3) or
runs out of host stack, to be converted by the enclosing call boundary. -/
theorem rec_run_body : ∀ (fuel : Nat) (st : Store), RecStore st →
    (∃ st', run_fun_body fuel recFnBody st.length (st ++ [⟨some 2, []⟩])
        = (st', .err ⟨2, 3, "maximum recursion depth exceeded"⟩))
    ∨ (∃ st', run_fun_body fuel recFnBody st.length (st ++ [⟨some 2, []⟩])
        = (st', .fuelOut)) := by
  intro fuel
  induction fuel using Nat.strong_induction_on with
  | _ fuel IH =>
    intro st h
    obtain ⟨h0, h2, n, hn⟩ := h
    have e1 : (st ++ [(⟨some 2, []⟩ : Frame)])[n + 3]? = some ⟨some 2, []⟩ := by
      rw [← hn]
      exact List.getElem?_concat_length ..
    have e2 : (st ++ [(⟨some 2, []⟩ : Frame)])[2]? = some ⟨some 0, []⟩ := by
      rw [List.getElem?_append, if_pos (by omega)]
      exact h2
    have e0 : (st ++ [(⟨some 2, []⟩ : Frame)])[0]?
        = some ⟨none, ctx_frame0.lookup ++ [("f", recFnVal)]⟩ := by
      rw [List.getElem?_append, if_pos (by omega)]
      exact h0
    rcases fuel with _|_|_|_|_|_|_|_|_|_|_|_|_|_|_|fuel
    all_goals try exact Or.inr ⟨_, rfl⟩
    rcases fuel with _|m
    · refine Or.inr ⟨st ++ [⟨some 2, []⟩], ?_⟩
      simp [call_as_func, hn, e1, e2, e0]
    · obtain ⟨st2, h2'⟩ | ⟨st2, h2'⟩ := IH m (by omega) (st ++ [⟨some 2, []⟩])
        (RecStore_append st ⟨h0, h2, n, hn⟩)
      all_goals refine Or.inl ⟨st2, ?_⟩
      all_goals simp [hn] at h2'
      all_goals simp [call_as_func, hn, e1, e2, e0, h2']

/-- Calling `f` at its own recursive call site always yields the
recursion-limit error, whatever the remaining host stack. -/
theorem rec_call_err : ∀ (fuel : Nat) (st : Store), RecStore st →
    ∃ st', call_as_func fuel ⟨2, 3⟩ recFnVal [] st
      = (st', .err ⟨2, 3, "maximum recursion depth exceeded"⟩) := by
  intro fuel st h
  rcases fuel with _|fuel
  · exact ⟨st, rfl⟩
  · obtain ⟨st', h'⟩ | ⟨st', h'⟩ := rec_run_body fuel st h
    · refine ⟨st', ?_⟩
      simp at h'
      simp [call_as_func, h']
    · refine ⟨st', ?_⟩
      simp at h'
      simp [call_as_func, h']

/-- Calling `f` from anywhere with enough host stack to enter its body
yields the recursion-limit error raised at the inner call site 2:3. -/
theorem rec_call_top : ∀ (k : Nat) (st : Store) (pos : Pos), RecStore st →
    ∃ st', call_as_func (k + 17) pos recFnVal [] st
      = (st', .err ⟨2, 3, "maximum recursion depth exceeded"⟩) := by
  intro k st pos h
  obtain ⟨h0, h2, n, hn⟩ := h
  have e1 : (st ++ [(⟨some 2, []⟩ : Frame)])[n + 3]? = some ⟨some 2, []⟩ := by
    rw [← hn]
    exact List.getElem?_concat_length ..
  have e2 : (st ++ [(⟨some 2, []⟩ : Frame)])[2]? = some ⟨some 0, []⟩ := by
    rw [List.getElem?_append, if_pos (by omega)]
    exact h2
  have e0 : (st ++ [(⟨some 2, []⟩ : Frame)])[0]?
      = some ⟨none, ctx_frame0.lookup ++ [("f", recFnVal)]⟩ := by
    rw [List.getElem?_append, if_pos (by omega)]
    exact h0
  obtain ⟨st', h'⟩ | ⟨st', h'⟩ := rec_run_body k (st ++ [⟨some 2, []⟩])
    (RecStore_append st ⟨h0, h2, n, hn⟩)
  · refine ⟨st', ?_⟩
    simp [hn] at h'
    simp [call_as_func, hn, e1, e2, e0, h']
  · refine ⟨st', ?_⟩
    simp [hn] at h'
    simp [call_as_func, hn, e1, e2, e0, h']

/-- C9: the self-recursive `recProg` always terminates in the
recursion-limit error, for every sufficiently large host stack budget. -/
theorem recursion_limit_always_errors (m : Nat) :
    interpret recProg (m + 50)
      = .error ⟨2, 3, "maximum recursion depth exceeded"⟩ := by
  obtain ⟨st', h'⟩ := rec_call_top (m + 17) recS0 ⟨4, 1⟩ recS0_RecStore
  rw [show m + 17 + 17 = m + 34 from by omega] at h'
  simp at h'
  simp [h']
